import Mathlib

/-!
Shallow embedding of the pa-airport-status scripts
(`scripts/update_status.py`, `scripts/fetch_faa.py`, `scripts/update_metar.py`,
`scripts/build_status_json_pa.py`) and proofs about them.

Modelling conventions:
* Python `float` values that arise here are exact fractions of integers, so they
  are modelled as exact rationals; `int` values as `Nat`.
* Python dictionaries are association lists with first-match lookup; insertion
  order is preserved as in CPython.
* HTTP traffic is an oracle parameter; a raised exception is an `Except.error`.
* The handful of regular expressions in the scripts are embedded as explicit
  scanners.  Each regex is of the shape `word-boundary, fixed tokens` where
  every greedy `+` repetition is followed by a character class disjoint from
  the repeated class, so maximal-munch matching without backtracking yields
  exactly the leftmost match that CPython `re.search` / `re.findall` produce.
-/

deriving instance DecidableEq for Except

namespace PAStatus

/-- Association-list lookup, first match wins (models Python dict access). -/
def alookup {β : Type} (k : String) : List (String × β) → Option β
  | [] => none
  | p :: rest => if p.1 = k then some p.2 else alookup k rest

/-- Key membership in an association list (models the Python `in` test on a dict). -/
def containsKeyB {β : Type} (k : String) (l : List (String × β)) : Bool :=
  (alookup k l).isSome

/-- Python dict assignment `d[k] = v`: overwrite in place if present, else append. -/
def insertOverwrite {β : Type} (l : List (String × β)) (k : String) (v : β) : List (String × β) :=
  if containsKeyB k l then l.map (fun p => if p.1 = k then (k, v) else p) else l ++ [(k, v)]

/-- Python `d.setdefault(k, v)`: insert only when the key is absent. -/
def insertDefault {β : Type} (l : List (String × β)) (k : String) (v : β) : List (String × β) :=
  if containsKeyB k l then l else l ++ [(k, v)]

/-- Regex word character (the ASCII core of `\w`). -/
def isWordChar (c : Char) : Bool := c.isAlpha || c.isDigit || c == '_'

/-- Python whitespace as used by `str.strip` and the regex class `\s` (ASCII core). -/
def isSpaceChar (c : Char) : Bool :=
  c == ' ' || c == '\t' || c == '\n' || c == '\r' || c == '\x0b' || c == '\x0c'

/-- Line terminators recognised by Python `str.splitlines`. -/
def isBreakChar (c : Char) : Bool :=
  c == '\n' || c == '\r' || c == '\x0b' || c == '\x0c' ||
  c == '\x1c' || c == '\x1d' || c == '\x1e' || c == '\x85' || c == ' ' || c == ' '

/-- Python `str.strip()` with no argument. -/
def pyStrip (s : String) : String :=
  ⟨((s.data.dropWhile isSpaceChar).reverse.dropWhile isSpaceChar).reverse⟩

/-- Python `str.upper()` (ASCII core), computed on the character list. -/
def pyUpper (s : String) : String := ⟨s.data.map Char.toUpper⟩

/-- Worker for `splitlines`; `cur` holds the current line reversed. -/
def splitlinesGo (cur : List Char) : List Char → List String
  | [] => if cur.isEmpty then [] else [⟨cur.reverse⟩]
  | '\r' :: '\n' :: rest => (⟨cur.reverse⟩ : String) :: splitlinesGo [] rest
  | c :: rest =>
    if isBreakChar c then (⟨cur.reverse⟩ : String) :: splitlinesGo [] rest
    else splitlinesGo (c :: cur) rest

/-- Python `str.splitlines()`. -/
def splitlines (s : String) : List String := splitlinesGo [] s.data

/-- Worker for `collapseWs`; `inWs` records whether the previous character was whitespace. -/
def collapseWsGo (inWs : Bool) : List Char → List Char
  | [] => []
  | c :: rest =>
    if isSpaceChar c then
      if inWs then collapseWsGo true rest else ' ' :: collapseWsGo true rest
    else c :: collapseWsGo false rest

/-- Python `re.sub(r"\s+", " ", s)`: collapse every whitespace run to one space. -/
def collapseWs (s : String) : String := ⟨collapseWsGo false s.data⟩

/-- Split off a maximal run of ASCII digits (the greedy `\d+`). -/
def takeDigits : List Char → List Char × List Char
  | [] => ([], [])
  | c :: rest =>
    if c.isDigit then
      let p := takeDigits rest
      (c :: p.1, p.2)
    else ([], c :: rest)

/-- Split off a maximal run of whitespace (the greedy `\s+`). -/
def takeSpaces : List Char → List Char × List Char
  | [] => ([], [])
  | c :: rest =>
    if isSpaceChar c then
      let p := takeSpaces rest
      (c :: p.1, p.2)
    else ([], c :: rest)

/-- Decimal value of a digit string (Python `int` / `float` on an all-digit group). -/
def digitsToNat (cs : List Char) : Nat :=
  cs.foldl (fun a c => a * 10 + (c.toNat - '0'.toNat)) 0

/-- Trailing `\b` after a word character: the next character is absent or a non-word one. -/
def boundaryAfterOK : List Char → Bool
  | [] => true
  | c :: _ => !(isWordChar c)

/-- Python `x or y` on optional strings: `None` and the empty string fall through. -/
def pyOr (a b : Option String) : Option String :=
  match a with
  | some s => if s = "" then b else a
  | none => b

/-- Python `x or d` with a string default. -/
def pyOrS (a : Option String) (d : String) : String :=
  match a with
  | some s => if s = "" then d else s
  | none => d

/-- Substring test used to state reason containment (Python `in` on strings). -/
def matchesAtL : List Char → List Char → Bool
  | [], _ => true
  | _ :: _, [] => false
  | a :: as2, b :: bs => a == b && matchesAtL as2 bs

/-- Worker for `hasSubstr`: does `pat` occur in the given suffix list? -/
def hasSubstrL (pat : List Char) : List Char → Bool
  | [] => matchesAtL pat []
  | c :: cs => matchesAtL pat (c :: cs) || hasSubstrL pat cs

/-- Python `pat in s` on strings. -/
def hasSubstr (s pat : String) : Bool := hasSubstrL pat.data s.data

/-- Python `s.startswith(pre)`. -/
def strStartsWith (s pre : String) : Bool := matchesAtL pre.data s.data

/-- Python `s.endswith(suff)`. -/
def strEndsWith (s suff : String) : Bool := matchesAtL suff.data.reverse s.data.reverse

/-- 10 to an integer power, as a rational. -/
def qpow10 (k : Int) : ℚ :=
  if 0 ≤ k then ((10 : ℚ) ^ k.toNat) else 1 / ((10 : ℚ) ^ (-k).toNat)

/-- Round `a / b` (naturals, `b` positive) to the nearest integer, ties to
even (the rounding used when formatting the exact value of a float). -/
def roundHalfEvenND (a b : Nat) : Nat :=
  let qt := a / b
  let r := a % b
  if 2 * r < b then qt
  else if b < 2 * r then qt + 1
  else if qt % 2 = 0 then qt else qt + 1

/-- Round `(n / d) * 10 ^ (5 - e0)` to the nearest integer, ties to even,
computing in natural arithmetic. -/
def roundSigND (n d : Nat) (e0 : Int) : Nat :=
  let shift := 5 - e0
  if 0 ≤ shift then roundHalfEvenND (n * 10 ^ shift.toNat) d
  else roundHalfEvenND n (d * 10 ^ (-shift).toNat)

/-- Least `k` with `n * 10 ^ k` at least `d` (used for the decimal exponent of `n / d < 1`). -/
def negDecExp (n d : Nat) : Nat :=
  (((List.range (d + 1)).find? (fun k => decide (d ≤ n * 10 ^ k)))).getD 0

/-- Floor of the base-10 logarithm of a positive natural, via its decimal
digit count. -/
def natLog10 (m : Nat) : Nat := (Nat.toDigits 10 m).length - 1

/-- Floor of the base-10 logarithm of `n / d` for positive naturals. -/
def decExpND (n d : Nat) : Int :=
  if d ≤ n then Int.ofNat (natLog10 (n / d))
  else -(Int.ofNat (negDecExp n d))

/-- Drop trailing zeros and a trailing decimal point, when a point is present. -/
def stripTrailing (l : List Char) : List Char :=
  if l.contains '.' then
    let r := l.reverse.dropWhile (fun c => c == '0')
    let r2 := match r with
      | '.' :: rest => rest
      | _ => r
    r2.reverse
  else l

/-- Two-digit zero-padded decimal (the exponent field of `%g`). -/
def pad2 (n : Nat) : String := if n < 10 then "0" ++ toString n else toString n

/-- Python `format(x, "g")` (the `%g` presentation with default precision 6),
computed on the exact rational value: round to six significant digits, use
fixed notation for decimal exponent in `[-4, 6)` and scientific notation
otherwise, stripping trailing zeros. -/
def fmtG (q : ℚ) : String :=
  if q = 0 then "0"
  else
    let sign := if q < 0 then "-" else ""
    let n := q.num.natAbs
    let d := q.den
    let e0 := decExpND n d
    let m0 := roundSigND n d e0
    let me := if m0 = 1000000 then ((100000 : Nat), e0 + 1) else (m0, e0)
    let ds := (toString me.1).data
    if -4 ≤ me.2 ∧ me.2 < 6 then
      if 0 ≤ me.2 then
        let k := me.2.toNat + 1
        sign ++ String.mk (stripTrailing (ds.take k ++ (if (ds.drop k).isEmpty then [] else '.' :: ds.drop k)))
      else
        sign ++ String.mk (stripTrailing ('0' :: '.' :: (List.replicate (me.2.natAbs - 1) '0' ++ ds)))
    else
      sign ++ String.mk (stripTrailing (ds.take 1 ++ '.' :: ds.drop 1)) ++ "e" ++
        (if me.2 < 0 then "-" else "+") ++ pad2 me.2.natAbs

namespace UpdateStatus

/-- Match `(\d{2})(\d{2})(\d{2})Z\b` at the current position
(the leading `\b` is checked by the caller). -/
def matchTimeAt : List Char → Option (String × String × String)
  | d1 :: d2 :: d3 :: d4 :: d5 :: d6 :: 'Z' :: rest =>
    if d1.isDigit && d2.isDigit && d3.isDigit && d4.isDigit && d5.isDigit && d6.isDigit
        && boundaryAfterOK rest then
      some (String.mk [d1, d2], String.mk [d3, d4], String.mk [d5, d6])
    else none
  | _ => none

/-- Leftmost match of `\b(\d{2})(\d{2})(\d{2})Z\b`; `prevWord` says whether the
character before the current position is a word character. -/
def searchTime (prevWord : Bool) : List Char → Option (String × String × String)
  | [] => none
  | c :: rest =>
    match (if prevWord then none else matchTimeAt (c :: rest)) with
    | some r => some r
    | none => searchTime (isWordChar c) rest

/-- `parse_metar_time_utc` of `update_status.py`: pull the DDHHMMZ group and
render it as `DD HH:MMZ`, or the empty string when absent. -/
def parse_metar_time_utc (metar : String) : String :=
  match searchTime false metar.data with
  | none => ""
  | some (dd, hh, mm) => dd ++ " " ++ hh ++ ":" ++ mm ++ "Z"

/-- Match `(\d+)\s+(\d+)/(\d+)SM\b` at the current position. -/
def matchMixedAt (cs : List Char) : Option (Nat × Nat × Nat) :=
  let p1 := takeDigits cs
  if p1.1.isEmpty then none else
  let p2 := takeSpaces p1.2
  if p2.1.isEmpty then none else
  let p3 := takeDigits p2.2
  if p3.1.isEmpty then none else
  match p3.2 with
  | '/' :: r4 =>
    let p4 := takeDigits r4
    if p4.1.isEmpty then none else
    match p4.2 with
    | 'S' :: 'M' :: r6 =>
      if boundaryAfterOK r6 then some (digitsToNat p1.1, digitsToNat p3.1, digitsToNat p4.1)
      else none
    | _ => none
  | _ => none

/-- Match `(\d+)/(\d+)SM\b` at the current position. -/
def matchFracAt (cs : List Char) : Option (Nat × Nat) :=
  let p1 := takeDigits cs
  if p1.1.isEmpty then none else
  match p1.2 with
  | '/' :: r2 =>
    let p2 := takeDigits r2
    if p2.1.isEmpty then none else
    match p2.2 with
    | 'S' :: 'M' :: r4 =>
      if boundaryAfterOK r4 then some (digitsToNat p1.1, digitsToNat p2.1) else none
    | _ => none
  | _ => none

/-- Match `(\d+)SM\b` at the current position. -/
def matchWholeAt (cs : List Char) : Option Nat :=
  let p1 := takeDigits cs
  if p1.1.isEmpty then none else
  match p1.2 with
  | 'S' :: 'M' :: r2 =>
    if boundaryAfterOK r2 then some (digitsToNat p1.1) else none
  | _ => none

/-- Leftmost match of `\b(\d+)\s+(\d+)/(\d+)SM\b`. -/
def searchMixed (prevWord : Bool) : List Char → Option (Nat × Nat × Nat)
  | [] => none
  | c :: rest =>
    match (if prevWord then none else matchMixedAt (c :: rest)) with
    | some r => some r
    | none => searchMixed (isWordChar c) rest

/-- Leftmost match of `\b(\d+)/(\d+)SM\b`. -/
def searchFrac (prevWord : Bool) : List Char → Option (Nat × Nat)
  | [] => none
  | c :: rest =>
    match (if prevWord then none else matchFracAt (c :: rest)) with
    | some r => some r
    | none => searchFrac (isWordChar c) rest

/-- Leftmost match of `\b(\d+)SM\b`. -/
def searchWhole (prevWord : Bool) : List Char → Option Nat
  | [] => none
  | c :: rest =>
    match (if prevWord then none else matchWholeAt (c :: rest)) with
    | some r => some r
    | none => searchWhole (isWordChar c) rest

/-- The message of the CPython `ZeroDivisionError` raised by `x / 0.0`. -/
def zdeMsg : String := "ZeroDivisionError: float division by zero"

/-- `parse_visibility_sm` of `update_status.py`: visibility in statute miles
from the first matching of the three visibility regexes, `none` when no form
matches.  A matched fraction with denominator zero raises in Python, modelled
as `Except.error`. -/
def parse_visibility_sm (metar : String) : Except String (Option ℚ) :=
  match searchMixed false metar.data with
  | some (w, n, d) =>
    if d = 0 then .error zdeMsg else .ok (some ((w : ℚ) + (n : ℚ) / (d : ℚ)))
  | none =>
  match searchFrac false metar.data with
  | some (n, d) =>
    if d = 0 then .error zdeMsg else .ok (some ((n : ℚ) / (d : ℚ)))
  | none =>
  match searchWhole false metar.data with
  | some n => .ok (some (n : ℚ))
  | none => .ok none

/-- Match exactly three digits followed by a trailing `\b`, returning their value. -/
def matchLayerDigits : List Char → Option Nat
  | d1 :: d2 :: d3 :: rest =>
    if d1.isDigit && d2.isDigit && d3.isDigit && boundaryAfterOK rest then
      some (digitsToNat [d1, d2, d3])
    else none
  | _ => none

/-- Match `(VV|BKN|OVC)(\d{3})\b` at the current position. -/
def matchLayerAt : List Char → Option Nat
  | 'V' :: 'V' :: rest => matchLayerDigits rest
  | 'B' :: 'K' :: 'N' :: rest => matchLayerDigits rest
  | 'O' :: 'V' :: 'C' :: rest => matchLayerDigits rest
  | _ => none

/-- All matches of `\b(VV|BKN|OVC)(\d{3})\b` (the `re.findall` of the ceiling
parse).  Scanning advances one character at a time: every character inside a
match is a word character, so no position strictly inside an earlier match can
satisfy the leading word boundary, and the scan finds exactly the
non-overlapping matches that `findall` returns. -/
def findLayers (prevWord : Bool) : List Char → List Nat
  | [] => []
  | c :: rest =>
    match (if prevWord then none else matchLayerAt (c :: rest)) with
    | some h => h :: findLayers (isWordChar c) rest
    | none => findLayers (isWordChar c) rest

/-- `parse_ceiling_ft_agl` of `update_status.py`: the lowest BKN/OVC/VV layer
base in feet (hundreds of feet scaled by 100), `none` when no layer parses. -/
def parse_ceiling_ft_agl (metar : String) : Option Nat :=
  match (findLayers false metar.data).map (fun h => h * 100) with
  | [] => none
  | v :: vs => some (vs.foldl Nat.min v)

/-- Does a parsed ceiling lie strictly below the bound? (`ceil is not None and ceil < b`) -/
def ceilLt (ceil : Option Nat) (b : Nat) : Bool :=
  match ceil with
  | some c => decide (c < b)
  | none => false

/-- Does a parsed ceiling lie in `[lo, hi)`? (`lo <= ceil < hi`) -/
def ceilBand (ceil : Option Nat) (lo hi : Nat) : Bool :=
  match ceil with
  | some c => decide (lo ≤ c) && decide (c < hi)
  | none => false

/-- Does a parsed visibility lie strictly below the bound? (`vis is not None and vis < b`) -/
def visLt (vis : Option ℚ) (b : ℚ) : Bool :=
  match vis with
  | some v => decide (v < b)
  | none => false

/-- Does a parsed visibility lie in `[lo, hi)`? -/
def visBand (vis : Option ℚ) (lo hi : ℚ) : Bool :=
  match vis with
  | some v => decide (lo ≤ v) && decide (v < hi)
  | none => false

/-- Does a parsed visibility lie in `[lo, hi]`? -/
def visBandLe (vis : Option ℚ) (lo hi : ℚ) : Bool :=
  match vis with
  | some v => decide (lo ≤ v) && decide (v ≤ hi)
  | none => false

/-- The reason list built in each classification branch:
`ceiling {c}ft` then `vis {v:g}SM`, joined with a comma. -/
def mkReason (ceil : Option Nat) (vis : Option ℚ) : String :=
  String.intercalate ", "
    ((match ceil with
      | some c => ["ceiling " ++ toString c ++ "ft"]
      | none => []) ++
     (match vis with
      | some v => ["vis " ++ fmtG v ++ "SM"]
      | none => []))

/-- `flight_category_from_metar` of `update_status.py`: `(category, reason)`
with categories evaluated worst first, UNK when neither quantity parsed.
Propagates the `ZeroDivisionError` of the visibility parse. -/
def flight_category_from_metar (metar : String) : Except String (String × String) :=
  match parse_visibility_sm metar with
  | .error e => .error e
  | .ok vis =>
    let ceil := parse_ceiling_ft_agl metar
    if vis = none ∧ ceil = none then .ok ("UNK", "")
    else if ceilLt ceil 500 || visLt vis 1 then .ok ("LIFR", mkReason ceil vis)
    else if ceilBand ceil 500 1000 || visBand vis 1 3 then .ok ("IFR", mkReason ceil vis)
    else if ceilBand ceil 1000 3000 || visBandLe vis 3 5 then .ok ("MVFR", mkReason ceil vis)
    else .ok ("VFR", "")

/-- `status_from_flight_cat` of `update_status.py`. -/
def status_from_flight_cat (cat : String) : String :=
  let c := pyUpper (if cat = "" then "UNK" else cat)
  if c = "IFR" ∨ c = "LIFR" ∨ c = "MVFR" then "IMPACT"
  else if c = "UNK" then "OK"
  else "OK"

/-- The fields of an airport record that the `update_status.py` main loop
reads or writes (other JSON fields of the record are untouched; `icao` stands
for them). -/
structure Rec where
  icao : String
  status : String
  flight_category : String
  impact_reason : String
  metar_raw : String
  metar_time_utc : String
  updated_utc : String
deriving DecidableEq, Repr

/-- The observation chosen from a non-empty response body: the first stripped
non-empty line, and the whole stripped body when no line remains. -/
def chooseMetarLine (raw : String) : String :=
  match ((splitlines raw).map pyStrip).filter (fun l => !(l == "")) with
  | [] => raw
  | l :: _ => l

/-- One iteration of the `update_status.py` main loop for one airport:
`t` is the run timestamp, `fetched` the outcome of `fetch_text` for the METAR
URL (`Except.error` models the caught `HTTPError` and `URLError`).  The result
is `Except.error` when the flight-category computation raises. -/
def processAirport (t : String) (fetched : Except Unit String) (rec : Rec) : Except String Rec :=
  match fetched with
  | .error _ =>
    .ok { rec with
      status := "CLOSED", flight_category := "UNK", impact_reason := "METAR fetch error",
      metar_raw := "", metar_time_utc := "", updated_utc := t }
  | .ok body =>
    let raw := pyStrip body
    if raw = "" then
      .ok { rec with
        status := "CLOSED", flight_category := "UNK", impact_reason := "no METAR",
        metar_raw := "", metar_time_utc := "", updated_utc := t }
    else
      let metar := chooseMetarLine raw
      match flight_category_from_metar metar with
      | .error e => .error e
      | .ok (fc, fcReason) =>
        let st := status_from_flight_cat fc
        .ok { rec with
          flight_category := fc,
          status := st,
          impact_reason :=
            if fcReason ≠ "" ∧ st = "IMPACT" then fc ++ ": " ++ fcReason
            else if st = "IMPACT" then "Flight rules degraded" else "",
          metar_raw := metar,
          metar_time_utc := parse_metar_time_utc metar,
          updated_utc := t }

/-- The `update_status.py` main loop over the airports map: each record is
replaced by its processed version; an uncaught exception aborts the run
(the file is never written). -/
def updateLoop (t : String) (fetch : String → Except Unit String) :
    List (String × Rec) → Except String (List (String × Rec))
  | [] => .ok []
  | (c, r) :: rest =>
    match processAirport t (fetch c) r with
    | .error e => .error e
    | .ok r2 =>
      match updateLoop t fetch rest with
      | .error e => .error e
      | .ok rest2 => .ok ((c, r2) :: rest2)

end UpdateStatus

namespace FetchFaa

/-- One entry of the hardcoded `AIRPORTS` table of `fetch_faa.py`. -/
structure FaaAirport where
  code : String
  name : String
  region : String
  lat : ℚ
  lon : ℚ
  metar : String
deriving DecidableEq, Repr

/-- The `AIRPORTS` table of `fetch_faa.py`. -/
def AIRPORTS : List FaaAirport := [
  ⟨"PIT", "Pittsburgh Intl", "Western", 40.4920, -80.2327, "KPIT"⟩,
  ⟨"ERI", "Erie Intl", "Western", 42.0831, -80.1739, "KERI"⟩,
  ⟨"LBE", "Arnold Palmer Regional", "Western", 40.2759, -79.4048, "KLBE"⟩,
  ⟨"JST", "Johnstown–Cambria County", "Western", 40.3161, -78.8339, "KJST"⟩,
  ⟨"DUJ", "DuBois Regional", "Western", 41.1783, -78.8987, "KDUJ"⟩,
  ⟨"MDT", "Harrisburg Intl", "Central", 40.1931, -76.7633, "KMDT"⟩,
  ⟨"CXY", "Capital City", "Central", 40.2171, -76.8515, "KCXY"⟩,
  ⟨"SCE", "State College Regional", "Central", 40.8493, -77.8487, "KUNV"⟩,
  ⟨"IPT", "Williamsport Regional", "Central", 41.2421, -76.9211, "KIPT"⟩,
  ⟨"AOO", "Altoona–Blair County", "Central", 40.2964, -78.3200, "KAOO"⟩,
  ⟨"BFD", "Bradford Regional", "Central", 41.8031, -78.6401, "KBFD"⟩,
  ⟨"PHL", "Philadelphia Intl", "Eastern", 39.8729, -75.2437, "KPHL"⟩,
  ⟨"ABP", "Northeast Philadelphia", "Eastern", 40.0819, -75.0106, "KPNE"⟩,
  ⟨"ABE", "Lehigh Valley Intl", "Eastern", 40.6521, -75.4408, "KABE"⟩,
  ⟨"AVP", "Wilkes-Barre/Scranton Intl", "Eastern", 41.3385, -75.7234, "KAVP"⟩,
  ⟨"RDG", "Reading Regional", "Eastern", 40.3785, -75.9652, "KRDG"⟩,
  ⟨"LNS", "Lancaster", "Eastern", 40.1217, -76.2961, "KLNS"⟩,
  ⟨"MPO", "Pocono Mountains Municipal", "Eastern", 41.1375, -75.3789, "KMPO"⟩]

/-- `PA_CODES` of `fetch_faa.py` (also the membership test `PA_SET`). -/
def PA_CODES : List String := AIRPORTS.map (fun a => a.code)

/-- One `Airport` node of the FAA NAS-status XML, reduced to the pieces
`fetch_airport_status_information` reads: the `findtext` results for the three
airport-id child tags and the two reason child tags, and the `itertext`
fragments of the whole node used by the flattening fallback. -/
structure AirportNode where
  arptARPT : Option String
  arptAirport : Option String
  arptARPT_ID : Option String
  reasonReason : Option String
  reasonREASON : Option String
  itertext : List String
deriving DecidableEq, Repr

/-- One element of the XML tree whose tag may end in `_List`, with the
`Airport` descendant nodes below it, in document order. -/
structure XmlList where
  tag : String
  airports : List AirportNode
deriving DecidableEq, Repr

/-- The normalized airport code of a node, `none` when the node is skipped
(no id text, or the id is not a Pennsylvania code). -/
def nodeCode (n : AirportNode) : Option String :=
  match pyOr (pyOr n.arptARPT n.arptAirport) n.arptARPT_ID with
  | none => none
  | some a =>
    if a = "" then none
    else
      let u := pyUpper (pyStrip a)
      if u ∈ PA_CODES then some u else none

/-- The reason text of a node: the stripped `Reason`/`REASON` child text, or
the whitespace-normalized flattening of the whole node when that is empty. -/
def nodeReason (n : AirportNode) : String :=
  let r := pyStrip ((pyOr n.reasonReason n.reasonREASON).getD "")
  if r = "" then collapseWs (pyStrip (String.intercalate " " n.itertext)) else r

/-- Is this `*_List` element a closure list? (`"Closure" in tag or "Closures" in tag`) -/
def isClosureTag (tag : String) : Bool :=
  hasSubstr tag "Closure" || hasSubstr tag "Closures"

/-- Route one airport node into the closures dict (assignment, last write
wins) when its list is a closure list, else into the impacts dict
(`setdefault`, first write wins); nodes with no usable code are skipped. -/
def routeNode (isCl : Bool) (acc : List (String × String) × List (String × String))
    (n : AirportNode) : List (String × String) × List (String × String) :=
  match nodeCode n with
  | none => acc
  | some arpt =>
    let reason := nodeReason n
    if isCl then (insertOverwrite acc.1 arpt reason, acc.2)
    else (acc.1, insertDefault acc.2 arpt reason)

/-- `fetch_airport_status_information` of `fetch_faa.py`, over the already
parsed XML: scan every `*_List` element and route each of its airport nodes. -/
def fetch_airport_status_information (ls : List XmlList) :
    List (String × String) × List (String × String) :=
  ls.foldl (fun acc l =>
    if !(strEndsWith l.tag "_List") then acc
    else l.airports.foldl (routeNode (isClosureTag l.tag)) acc) ([], [])

/-- An airport-status record of the `fetch_faa.py` output.  In the script the
`flight_category` key is absent until the final loop writes it; since that
loop writes every Pennsylvania code, the field is initialised here with a
placeholder that is always overwritten. -/
structure FStatus where
  code : String
  status : String
  closed : Bool
  closure_reason : String
  events : List (String × String)
  flight_category : String
deriving DecidableEq, Repr

/-- The default status object built for every code at the start of `main`. -/
def defaultFStatus (code : String) : FStatus :=
  { code := code, status := "OK", closed := false, closure_reason := "",
    events := [], flight_category := "" }

/-- In-place update of the record stored under a key (`airports_status[code]`
mutation).  In the script the key always exists (every key comes from
`PA_SET`); an absent key is modelled as a no-op, and the theorems below
restrict to key sets inside `PA_CODES` where both agree. -/
def updateAssoc (m : List (String × FStatus)) (k : String) (f : FStatus → FStatus) :
    List (String × FStatus) :=
  m.map (fun p => if p.1 = k then (p.1, f p.2) else p)

/-- The status-assembly part of `main` in `fetch_faa.py`: default records for
all Pennsylvania codes, then the closures loop, the impacts loop (skipping
closed airports), and the flight-category loop over the airports table. -/
def assemble (cls imps fc_map : List (String × String)) : List (String × FStatus) :=
  let init := PA_CODES.map (fun c => (c, defaultFStatus c))
  let afterCls := cls.foldl (fun m p =>
    updateAssoc m p.1 (fun st =>
      { st with status := "CLOSED", closed := true, closure_reason := p.2 })) init
  let afterImp := imps.foldl (fun m p =>
    updateAssoc m p.1 (fun st =>
      if st.closed then st
      else { st with status := "IMPACT", events := [("Impact", p.2)] })) afterCls
  AIRPORTS.foldl (fun m a =>
    updateAssoc m a.code (fun st =>
      { st with flight_category := (alookup (pyUpper a.metar) fc_map).getD "UNK" })) afterImp

/-- `main` of `fetch_faa.py`, from the parsed FAA event lists and the fetched
flight-category map to the `airports` member of the written document. -/
def faa_main (ls : List XmlList) (fc_map : List (String × String)) : List (String × FStatus) :=
  let ci := fetch_airport_status_information ls
  assemble ci.1 ci.2 fc_map

/-- The `(code, reason)` pairs a single list element contributes. -/
def listEntries (l : XmlList) : List (String × String) :=
  l.airports.filterMap (fun n => (nodeCode n).map (fun c => (c, nodeReason n)))

/-- All closure entries of the feed, in document order. -/
def closureEntries (ls : List XmlList) : List (String × String) :=
  (ls.filter (fun l => strEndsWith l.tag "_List" && isClosureTag l.tag)).flatMap listEntries

/-- All impact entries of the feed, in document order. -/
def impactEntries (ls : List XmlList) : List (String × String) :=
  (ls.filter (fun l => strEndsWith l.tag "_List" && !isClosureTag l.tag)).flatMap listEntries

/-- The value of the last entry with the given key (what repeated dict
assignment leaves behind). -/
def lastVal (es : List (String × String)) (k : String) : Option String :=
  es.foldl (fun r e => if e.1 = k then some e.2 else r) none

/-- The value of the first entry with the given key (what repeated
`setdefault` leaves behind). -/
def firstVal (es : List (String × String)) (k : String) : Option String :=
  es.foldr (fun e r => if e.1 = k then some e.2 else r) none

end FetchFaa

namespace UpdateMetar

/-- A row of the stations CSV as `csv.DictReader` yields it: each field is
the column text, `none` when the column is missing. -/
structure Row where
  state : Option String
  station_id : Option String
  station_name : Option String
  latitude : Option String
  longitude : Option String
deriving DecidableEq, Repr

/-- A record of the prior `docs/status.json` snapshot, as read back for the
merge: each field is `none` when the key is absent (`prev.get(k, d)`). -/
structure PrevRec where
  status : Option String
  impact_reason : Option String
  flight_category : Option String
  metar_raw : Option String
  metar_time_utc : Option String
deriving DecidableEq, Repr

/-- An output airport record of `update_metar.py`. -/
structure ARec where
  icao : String
  status : String
  impact_reason : String
  flight_category : String
  metar_raw : String
  metar_time_utc : String
deriving DecidableEq, Repr

/-- The prior-snapshot view of an output record (all keys present). -/
def ARec.toPrev (r : ARec) : PrevRec :=
  { status := some r.status, impact_reason := some r.impact_reason,
    flight_category := some r.flight_category, metar_raw := some r.metar_raw,
    metar_time_utc := some r.metar_time_utc }

/-- The decimal core of Python `float(str)`: optional sign, digits with an
optional fraction and exponent (the special forms inf/nan and underscores do
not occur in the feed and are not modelled). -/
def parseExpPart (mant : ℚ) : List Char → Option ℚ
  | '+' :: rest =>
    let p := takeDigits rest
    if p.1.isEmpty || !p.2.isEmpty then none
    else some (mant * qpow10 (Int.ofNat (digitsToNat p.1)))
  | '-' :: rest =>
    let p := takeDigits rest
    if p.1.isEmpty || !p.2.isEmpty then none
    else some (mant * qpow10 (-(Int.ofNat (digitsToNat p.1))))
  | rest =>
    let p := takeDigits rest
    if p.1.isEmpty || !p.2.isEmpty then none
    else some (mant * qpow10 (Int.ofNat (digitsToNat p.1)))

/-- Unsigned float literal: `digits [. digits] [(e|E) exp]` with at least one
mantissa digit. -/
def parseUnsigned (cs : List Char) : Option ℚ :=
  let p1 := takeDigits cs
  let fr : Option (List Char) × List Char :=
    match p1.2 with
    | '.' :: rest =>
      let p2 := takeDigits rest
      (some p2.1, p2.2)
    | _ => (none, p1.2)
  if p1.1.isEmpty ∧ (fr.1.getD []).isEmpty then none
  else
    let mant : ℚ := (digitsToNat p1.1 : ℚ) +
      (digitsToNat (fr.1.getD []) : ℚ) / ((10 : ℚ) ^ (fr.1.getD []).length)
    match fr.2 with
    | [] => some mant
    | 'e' :: rest => parseExpPart mant rest
    | 'E' :: rest => parseExpPart mant rest
    | _ => none

/-- Python `float(s)` on a string, as an exact rational; `none` when it raises. -/
def pyFloat (s : String) : Option ℚ :=
  let cs := (s.data.dropWhile isSpaceChar).reverse.dropWhile isSpaceChar |>.reverse
  match cs with
  | '+' :: rest => parseUnsigned rest
  | '-' :: rest => (parseUnsigned rest).map (fun q => -q)
  | _ => parseUnsigned cs

/-- `as_float` of `update_metar.py`: `float(x)` with every exception mapped to
`None` (a missing column raises `TypeError`, bad text raises `ValueError`). -/
def as_float (x : Option String) : Option ℚ := x.bind pyFloat

/-- `code_from_station_id` of `update_metar.py`: `KMDT` becomes `MDT`. -/
def code_from_station_id (station_id : String) : String :=
  let sid := pyUpper (pyStrip station_id)
  if sid.length = 4 ∧ strStartsWith sid "K" then sid.drop 1 else sid

/-- `icao_from_station_id` of `update_metar.py`. -/
def icao_from_station_id (station_id : String) : String :=
  let sid := pyUpper (pyStrip station_id)
  if sid.length = 4 then sid
  else if sid.length = 3 then "K" ++ sid
  else sid

/-- `looks_like_metar_station` of `update_metar.py`. -/
def looks_like_metar_station (r : Row) : Bool :=
  let sid := pyUpper (pyStrip (r.station_id.getD ""))
  if sid = "" || !(sid.length = 3 || sid.length = 4) then false
  else (as_float r.latitude).isSome && (as_float r.longitude).isSome

/-- `region_from_lon` of `update_metar.py`: longitude bands for the
West/Central/East split. -/
def region_from_lon (lon : ℚ) : String :=
  if lon ≤ -78.5 then "Western"
  else if lon ≤ -76.5 then "Central"
  else "Eastern"

/-- An entry of a region list in the output document. -/
structure RegionEntry where
  code : String
  icao : String
  name : String
  lat : ℚ
  lon : ℚ
deriving DecidableEq, Repr

/-- The three region lists of the output document. -/
structure Regions where
  western : List RegionEntry
  central : List RegionEntry
  eastern : List RegionEntry
deriving DecidableEq, Repr

/-- The empty region mapping `{"Western": [], "Central": [], "Eastern": []}`. -/
def emptyRegions : Regions := ⟨[], [], []⟩

/-- The data extracted from one accepted CSV row. -/
structure RowSel where
  code : String
  icao : String
  name : String
  lat : ℚ
  lon : ℚ
deriving DecidableEq, Repr

/-- The filters and field extraction applied to one CSV row by the build loop
of `update_metar.py`: keep Pennsylvania rows that look like METAR stations and
have parseable coordinates. -/
def rowInfo (r : Row) : Option RowSel :=
  let st := pyUpper (pyStrip (r.state.getD ""))
  if st ≠ "PA" then none
  else if !looks_like_metar_station r then none
  else
    let sid := pyUpper (pyStrip (r.station_id.getD ""))
    let name := pyStrip (pyOrS r.station_name sid)
    match as_float r.latitude, as_float r.longitude with
    | some lat, some lon =>
      some { code := code_from_station_id sid, icao := icao_from_station_id sid,
             name := name, lat := lat, lon := lon }
    | _, _ => none

/-- Append a selected row to its region list (`regions[region].append(...)`). -/
def addRegion (regs : Regions) (s : RowSel) : Regions :=
  let e : RegionEntry := ⟨s.code, s.icao, s.name, s.lat, s.lon⟩
  let rg := region_from_lon s.lon
  if rg = "Western" then { regs with western := regs.western ++ [e] }
  else if rg = "Central" then { regs with central := regs.central ++ [e] }
  else { regs with eastern := regs.eastern ++ [e] }

/-- The fresh airport record built for a selected row, preserving the manual
fields of the prior snapshot (`prev.get(...)` defaults). -/
def initRec (icao : String) (prev : Option PrevRec) : ARec :=
  let p := prev.getD ⟨none, none, none, none, none⟩
  { icao := icao,
    status := p.status.getD "OK",
    impact_reason := p.impact_reason.getD "",
    flight_category := p.flight_category.getD "UNK",
    metar_raw := p.metar_raw.getD "",
    metar_time_utc := p.metar_time_utc.getD "" }

/-- The station-list build loop of `update_metar.py` `main` (step 1): walk the
CSV rows, skip filtered rows, de-duplicate by code (first occurrence wins),
extend the region lists and the airports map. -/
def buildLoop (prev : String → Option PrevRec) :
    List Row → Regions → List (String × ARec) → Regions × List (String × ARec)
  | [], regs, aps => (regs, aps)
  | r :: rest, regs, aps =>
    match rowInfo r with
    | none => buildLoop prev rest regs aps
    | some s =>
      if containsKeyB s.code aps then buildLoop prev rest regs aps
      else buildLoop prev rest (addRegion regs s)
        (aps ++ [(s.code, initRec s.icao (prev s.code))])

/-- The rows the build loop accepts, de-duplicated by code against the codes
already seen; a proof-side skeleton of the loop that does not depend on the
prior snapshot. -/
def selRows : List Row → List String → List RowSel
  | [], _ => []
  | r :: rest, seen =>
    match rowInfo r with
    | none => selRows rest seen
    | some s =>
      if s.code ∈ seen then selRows rest seen
      else s :: selRows rest (seen ++ [s.code])

/-- One METAR entry of the fetched METAR CSV, keyed by station id. -/
structure MetarInfo where
  flight_category : String
  raw_text : String
  observation_time : String
deriving DecidableEq, Repr

/-- `norm_fc` of `update_metar.py`. -/
def norm_fc (fc : String) : String :=
  let v := pyUpper (pyStrip (if fc = "" then "UNK" else fc))
  if v = "VFR" ∨ v = "MVFR" ∨ v = "IFR" ∨ v = "LIFR" then v else "UNK"

/-- Step 2 of `update_metar.py` `main` for one record: merge the fetched METAR
data, never touching `status` or `impact_reason`. -/
def updateMetarRec (mm : List (String × MetarInfo)) (rec : ARec) : ARec :=
  let icao := pyUpper (pyStrip rec.icao)
  match alookup icao mm with
  | none => { rec with flight_category := norm_fc rec.flight_category }
  | some m =>
    { rec with
      flight_category := norm_fc m.flight_category,
      metar_raw := pyStrip m.raw_text,
      metar_time_utc := pyStrip m.observation_time }

/-- Stable insertion into a code-sorted region list. -/
def insertByCode (e : RegionEntry) : List RegionEntry → List RegionEntry
  | [] => [e]
  | x :: xs => if e.code < x.code then e :: x :: xs else x :: insertByCode e xs

/-- Stable sort of a region list by code (`regions[k].sort(key=...)`). -/
def sortByCode (l : List RegionEntry) : List RegionEntry :=
  l.foldr insertByCode []

/-- Sort all three region lists. -/
def sortRegions (regs : Regions) : Regions :=
  ⟨sortByCode regs.western, sortByCode regs.central, sortByCode regs.eastern⟩

/-- `main` of `update_metar.py`, from the prior snapshot, the station CSV rows
and the fetched METAR map to the `regions` and `airports` members of the
written document. -/
def update_metar_main (existing : List (String × PrevRec)) (rows : List Row)
    (mm : List (String × MetarInfo)) : Regions × List (String × ARec) :=
  let built := buildLoop (fun c => alookup c existing) rows emptyRegions []
  (sortRegions built.1, built.2.map (fun p => (p.1, updateMetarRec mm p.2)))

end UpdateMetar

namespace Fetching

/-- The shape of one HTTP GET request issued by the scripts. -/
structure HttpRequest where
  url : String
  headers : List (String × String)
  timeoutSeconds : Nat
deriving DecidableEq, Repr

/-- The network oracle: response (or raised error) per attempt index and request. -/
def Net : Type := Nat → HttpRequest → Except String String

/-- The fixed `User-Agent` of `update_status.py`, `update_metar.py` and
`build_status_json_pa.py`. -/
def UA : String := "PA-Airport-Status-GitHub/1.0"

/-- The FAA NAS-status endpoint of `fetch_faa.py`. -/
def FAA_AIRPORT_STATUS_XML : String := "https://nasstatus.faa.gov/api/airport-status-information"

/-- The request issued by `fetch_text` of `update_status.py` (timeout 12 s). -/
def update_status_request (url : String) : HttpRequest :=
  ⟨url, [("User-Agent", UA)], 12⟩

/-- The request issued by `fetch_text` of `update_metar.py` (timeout 25 s). -/
def update_metar_request (url : String) : HttpRequest :=
  ⟨url, [("User-Agent", UA)], 25⟩

/-- The request issued by `fetch_text` of `build_status_json_pa.py` (timeout 25 s). -/
def build_status_request (url : String) : HttpRequest :=
  ⟨url, [("User-Agent", UA)], 25⟩

/-- The request issued by `fetch_airport_status_information` of `fetch_faa.py`:
`requests.get(FAA_AIRPORT_STATUS_XML, timeout=30)` with no headers. -/
def faa_status_request : HttpRequest :=
  ⟨FAA_AIRPORT_STATUS_XML, [], 30⟩

/-- The request issued by `fetch_flight_categories` of `fetch_faa.py`. -/
def metar_categories_request (idsParam : String) : HttpRequest :=
  ⟨"https://aviationweather.gov/api/data/metar?format=json&hours=6&ids=" ++ idsParam,
   [("User-Agent", "PA-Airport-StatusBoard/1.0 (GitHub Actions)")], 30⟩

/-- `fetch_text` of `update_status.py`: a single attempt, any error propagates. -/
def fetch_text_status (net : Net) (url : String) : Except String String :=
  net 0 (update_status_request url)

/-- `fetch_text` of `update_metar.py`: a single attempt, any error propagates. -/
def fetch_text_metar (net : Net) (url : String) : Except String String :=
  net 0 (update_metar_request url)

/-- `fetch_text` of `build_status_json_pa.py`: a single attempt, any error propagates. -/
def fetch_text_build (net : Net) (url : String) : Except String String :=
  net 0 (build_status_request url)

/-- The HTTP GET inside `fetch_airport_status_information`: a single attempt. -/
def faa_status_get (net : Net) : Except String String :=
  net 0 faa_status_request

/-- The HTTP GET inside `fetch_flight_categories`: a single attempt. -/
def metar_categories_get (net : Net) (idsParam : String) : Except String String :=
  net 0 (metar_categories_request idsParam)

end Fetching

/-! Concrete instances used to exercise the theorems below. -/

/-- The raw observation of the end-to-end scenario in the spec. -/
def kmdtRaw : String := "KMDT 270551Z 01008KT 2SM BR OVC008 06/04 A3012"

/-- A record whose manual status is OK before a refresh. -/
def rec0 : UpdateStatus.Rec :=
  ⟨"KABE", "OK", "VFR", "", "", "", "2026-01-01 00:00"⟩

/-- The closure event of the end-to-end scenario in the spec. -/
def abeClosureNode : FetchFaa.AirportNode :=
  ⟨some "ABE", none, none, some "Snow removal", none, ["ABE", "Snow removal"]⟩

/-- The scenario feed: one closure list holding the ABE closure event. -/
def scenarioLists : List FetchFaa.XmlList :=
  [⟨"Airport_Closures_List", [abeClosureNode]⟩]

/-- A non-closure event whose reason text is full of closure keywords. -/
def gsKeywordNode : FetchFaa.AirportNode :=
  ⟨some "ABE", none, none, some "Runway plowing, snow and ice on field closed for closure", none, []⟩

/-- A feed with the keyword-laden event under a ground-stop list. -/
def gsLists : List FetchFaa.XmlList :=
  [⟨"Ground_Stop_List", [gsKeywordNode]⟩]

/-- A first closure event for ABE. -/
def twoClsNode1 : FetchFaa.AirportNode :=
  ⟨some "ABE", none, none, some "Snow removal east", none, []⟩

/-- A later closure event for the same airport with a different reason. -/
def twoClsNode2 : FetchFaa.AirportNode :=
  ⟨some "ABE", none, none, some "Ice on taxiway", none, []⟩

/-- A feed with two closure events for ABE, to observe which reason survives. -/
def twoClsLists : List FetchFaa.XmlList :=
  [⟨"Airport_Closures_List", [twoClsNode1, twoClsNode2]⟩]

/-- A first ground-stop event for ABE. -/
def twoImpNode1 : FetchFaa.AirportNode :=
  ⟨some "ABE", none, none, some "Deicing delays", none, []⟩

/-- A later ground-stop event for the same airport with a different reason. -/
def twoImpNode2 : FetchFaa.AirportNode :=
  ⟨some "ABE", none, none, some "Wind shear alerts", none, []⟩

/-- A feed with two impact events for ABE, to observe which reason survives. -/
def twoImpLists : List FetchFaa.XmlList :=
  [⟨"Ground_Stop_List", [twoImpNode1, twoImpNode2]⟩]

/-- The record the refresh loop writes for `rec0` from the scenario METAR at
run time `2026-01-01 00:00`. -/
def recRun1 : UpdateStatus.Rec :=
  ⟨"KABE", "IMPACT", "IFR", "IFR: ceiling 800ft, vis 2SM",
   "KMDT 270551Z 01008KT 2SM BR OVC008 06/04 A3012", "27 05:51Z", "2026-01-01 00:00"⟩

/-- The same record written by a second run five minutes later. -/
def recRun2 : UpdateStatus.Rec :=
  ⟨"KABE", "IMPACT", "IFR", "IFR: ceiling 800ft, vis 2SM",
   "KMDT 270551Z 01008KT 2SM BR OVC008 06/04 A3012", "27 05:51Z", "2026-01-01 00:05"⟩

/-- The record written for `rec0` from the scenario METAR at `2026-01-01 01:00`. -/
def recKmdt : UpdateStatus.Rec :=
  ⟨"KABE", "IMPACT", "IFR", "IFR: ceiling 800ft, vis 2SM",
   "KMDT 270551Z 01008KT 2SM BR OVC008 06/04 A3012", "27 05:51Z", "2026-01-01 01:00"⟩

/-- A stations CSV row for Harrisburg. -/
def rowMDT : UpdateMetar.Row :=
  ⟨some "PA", some "KMDT", some "Harrisburg Intl", some "40.19", some "-76.76"⟩

/-- A prior snapshot with a manual IMPACT status and impact reason. -/
def priorMDT : List (String × UpdateMetar.PrevRec) :=
  [("MDT", ⟨some "IMPACT", some "foo", none, none, none⟩)]

/-- The output record for Harrisburg from `priorMDT`, `rowMDT` and `mmKMDT`. -/
def recMDT : UpdateMetar.ARec :=
  ⟨"KMDT", "IMPACT", "foo", "IFR",
   "KMDT 270551Z 01008KT 2SM BR OVC008 06/04 A3012", "2026-01-01T00:00:00Z"⟩

/-- A fetched METAR map for Harrisburg. -/
def mmKMDT : List (String × UpdateMetar.MetarInfo) :=
  [("KMDT", ⟨"ifr", "KMDT 270551Z 01008KT 2SM BR OVC008 06/04 A3012", "2026-01-01T00:00:00Z"⟩)]

/-! Helper lemmas about association lists. -/

open UpdateStatus FetchFaa UpdateMetar Fetching

theorem alookup_isSome_iff {β : Type} (k : String) (l : List (String × β)) :
    (alookup k l).isSome = true ↔ k ∈ l.map Prod.fst := by
  induction l with
  | nil => simp [alookup]
  | cons p rest ih =>
    by_cases h : p.1 = k
    · subst h; simp [alookup]
    · have h2 : ¬(k = p.1) := fun hk => h hk.symm
      simp [alookup, h, ih, h2]

theorem containsKeyB_iff {β : Type} (k : String) (l : List (String × β)) :
    containsKeyB k l = true ↔ k ∈ l.map Prod.fst := by
  rw [containsKeyB, alookup_isSome_iff]

theorem alookup_append {β : Type} (k : String) (l1 l2 : List (String × β)) :
    alookup k (l1 ++ l2) =
      match alookup k l1 with
      | some v => some v
      | none => alookup k l2 := by
  induction l1 with
  | nil => simp [alookup]
  | cons p rest ih =>
    by_cases h : p.1 = k
    · simp [alookup, h]
    · simp [alookup, h, ih]

theorem alookup_map_self {β : Type} (f : String → β) (k : String) (l : List String) :
    alookup k (l.map (fun c => (c, f c))) = if k ∈ l then some (f k) else none := by
  induction l with
  | nil => simp [alookup]
  | cons c rest ih =>
    by_cases h : c = k
    · subst h; simp [alookup]
    · have h2 : ¬(k = c) := fun hk => h hk.symm
      simp [alookup, h, ih, h2]

theorem alookup_mapOverwrite {β : Type} (k k2 : String) (v : β) (l : List (String × β)) :
    alookup k2 (l.map (fun p => if p.1 = k then (k, v) else p)) =
      if k2 = k then (alookup k l).map (fun _ => v) else alookup k2 l := by
  induction l with
  | nil => by_cases h : k2 = k <;> simp [alookup, h]
  | cons p rest ih =>
    by_cases h1 : p.1 = k
    · by_cases h2 : k2 = k
      · subst h2; simp [alookup, h1]
      · have h3 : ¬(k = k2) := fun hk => h2 hk.symm
        simp [alookup, h1, h2, h3, ih]
    · by_cases h2 : k2 = k
      · subst h2; simp [alookup, h1, ih]
      · by_cases h3 : p.1 = k2
        · simp [alookup, h1, h2, h3]
        · simp [alookup, h1, h2, h3, ih]

theorem alookup_insertOverwrite {β : Type} (l : List (String × β)) (k k2 : String) (v : β) :
    alookup k2 (insertOverwrite l k v) = if k2 = k then some v else alookup k2 l := by
  unfold insertOverwrite
  by_cases hp : containsKeyB k l = true
  · rw [if_pos hp, alookup_mapOverwrite]
    by_cases h : k2 = k
    · subst h
      rw [containsKeyB] at hp
      cases hx : alookup k2 l with
      | none => rw [hx] at hp; simp at hp
      | some w => simp [hx]
    · simp [h]
  · rw [if_neg hp, alookup_append]
    by_cases h : k2 = k
    · subst h
      have hnone : alookup k2 l = none := by
        cases hx : alookup k2 l with
        | none => rfl
        | some v2 => exact absurd (by simp [containsKeyB, hx]) hp
      simp [hnone, alookup]
    · have h2 : ¬(k = k2) := fun hk => h hk.symm
      cases hx : alookup k2 l with
      | none => simp [alookup, h, h2]
      | some v2 => simp [hx, h]

theorem alookup_insertDefault {β : Type} (l : List (String × β)) (k k2 : String) (v : β) :
    alookup k2 (insertDefault l k v) =
      if k2 = k then
        match alookup k2 l with
        | some w => some w
        | none => some v
      else alookup k2 l := by
  unfold insertDefault
  by_cases hp : containsKeyB k l = true
  · rw [if_pos hp]
    by_cases h : k2 = k
    · subst h
      cases hx : alookup k2 l with
      | none => rw [containsKeyB, hx] at hp; exact absurd hp (by simp)
      | some w => simp [hx]
    · simp [h]
  · rw [if_neg hp, alookup_append]
    by_cases h : k2 = k
    · subst h
      have hnone : alookup k2 l = none := by
        cases hx : alookup k2 l with
        | none => rfl
        | some v2 => exact absurd (by simp [containsKeyB, hx]) hp
      simp [hnone, alookup]
    · have h2 : ¬(k = k2) := fun hk => h hk.symm
      cases hx : alookup k2 l with
      | none => simp [alookup, h, h2]
      | some v2 => simp [hx, h]

/-! Lemmas about the flight-category classifier. -/

theorem flight_category_cases (m : String) (p : String × String)
    (h : flight_category_from_metar m = .ok p) :
    p.1 = "UNK" ∨ p.1 = "LIFR" ∨ p.1 = "IFR" ∨ p.1 = "MVFR" ∨ p.1 = "VFR" := by
  unfold flight_category_from_metar at h
  cases hv : parse_visibility_sm m with
  | error e => rw [hv] at h; cases h
  | ok vis =>
    rw [hv] at h
    dsimp only at h
    split at h
    · cases h; simp
    split at h
    · cases h; simp
    split at h
    · cases h; simp
    split at h
    · cases h; simp
    · cases h; simp

/-- C1: for every raw METAR observation from which the classifier parses a
visibility or a ceiling (at least one present), if the ceiling is below 500
feet or the visibility below one statute mile, `flight_category_from_metar`
returns category LIFR. -/
theorem C1_lifr_when_low (metar : String) (vo : Option ℚ)
    (hv : parse_visibility_sm metar = .ok vo)
    (h : (∃ c, parse_ceiling_ft_agl metar = some c ∧ c < 500) ∨
         (∃ v, vo = some v ∧ v < 1)) :
    ∃ r, flight_category_from_metar metar = .ok ("LIFR", r) := by
  unfold flight_category_from_metar
  rw [hv]
  dsimp only
  have hnn : ¬(vo = none ∧ parse_ceiling_ft_agl metar = none) := by
    rintro ⟨hvn, hcn⟩
    rcases h with ⟨c, hc, _⟩ | ⟨v, hveq, _⟩
    · rw [hc] at hcn; cases hcn
    · rw [hveq] at hvn; cases hvn
  have hcond : (ceilLt (parse_ceiling_ft_agl metar) 500 || visLt vo 1) = true := by
    rcases h with ⟨c, hc, hlt⟩ | ⟨v, hveq, hlt⟩
    · rw [hc]; simp [ceilLt, hlt]
    · rw [hveq]; simp [visLt, hlt]
  rw [if_neg hnn, if_pos (by exact_mod_cast hcond)]
  exact ⟨mkReason (parse_ceiling_ft_agl metar) vo, rfl⟩

/-- C1 witness: on the observation `1/2SM` the visibility parses as one half
statute mile and the classifier returns LIFR. -/
theorem C1_lifr_when_low_witness :
    ∃ r, flight_category_from_metar "1/2SM" = .ok ("LIFR", r) :=
  C1_lifr_when_low "1/2SM" (some (1 / 2)) rfl
    (Or.inr ⟨1 / 2, rfl, by norm_num⟩)

/-- C2: on the concrete observation of the end-to-end scenario,
`parse_visibility_sm` returns 2, `parse_ceiling_ft_agl` returns 800, and
`flight_category_from_metar` returns IFR with a reason containing
`ceiling 800ft, vis 2SM`. -/
theorem C2_kmdt_scenario :
    parse_visibility_sm kmdtRaw = .ok (some 2) ∧
    parse_ceiling_ft_agl kmdtRaw = some 800 ∧
    (flight_category_from_metar kmdtRaw).toOption.map Prod.fst = some "IFR" ∧
    (flight_category_from_metar kmdtRaw).toOption.map
      (fun p => hasSubstr p.2 "ceiling 800ft, vis 2SM") = some true := by
  exact ⟨rfl, rfl, rfl, rfl⟩

/-- C7, corrected, counterexample: on the input `1/0SM` the visibility regex
matches a fraction with denominator zero and the classifier raises
`ZeroDivisionError` instead of returning a category. -/
theorem C7_div_zero_counterexample :
    flight_category_from_metar "1/0SM" = .error zdeMsg := rfl

/-- C7 amended: whenever the visibility parse itself does not raise (no
matched fraction has denominator zero), the classifier returns a value, one of
the five categories; when neither visibility nor ceiling parses it returns
`("UNK", "")`.  On a zero-denominator fraction such as `1/0SM` it raises
`ZeroDivisionError` instead. -/
theorem C7_total_unless_zero_den (m : String) :
    (∀ vo, parse_visibility_sm m = .ok vo →
      ∃ out, flight_category_from_metar m = .ok out ∧
        (out.1 = "UNK" ∨ out.1 = "LIFR" ∨ out.1 = "IFR" ∨ out.1 = "MVFR" ∨ out.1 = "VFR")) ∧
    (parse_visibility_sm m = .ok none → parse_ceiling_ft_agl m = none →
      flight_category_from_metar m = .ok ("UNK", "")) := by
  constructor
  · intro vo hv
    have hok : ∃ out, flight_category_from_metar m = .ok out := by
      unfold flight_category_from_metar
      rw [hv]
      dsimp only
      split
      · exact ⟨_, rfl⟩
      split
      · exact ⟨_, rfl⟩
      split
      · exact ⟨_, rfl⟩
      split
      · exact ⟨_, rfl⟩
      · exact ⟨_, rfl⟩
    obtain ⟨out, hout⟩ := hok
    exact ⟨out, hout, flight_category_cases m out hout⟩
  · intro hvn hcn
    unfold flight_category_from_metar
    rw [hvn]
    dsimp only
    rw [if_pos ⟨rfl, hcn⟩]

/-- C7 witness: on unparsable text the classifier returns UNK with an empty
reason. -/
theorem C7_total_unless_zero_den_witness :
    flight_category_from_metar "FOO BAR" = .ok ("UNK", "") :=
  (C7_total_unless_zero_den "FOO BAR").2 rfl rfl

/-! Lemmas about the update_status main loop. -/

/-- Equation: a fetch error yields the CLOSED fallback record. -/
theorem processAirport_fetchError (t : String) (e : Unit) (rec : Rec) :
    processAirport t (.error e) rec =
      .ok { rec with
            status := "CLOSED", flight_category := "UNK",
            impact_reason := "METAR fetch error", metar_raw := "", metar_time_utc := "",
            updated_utc := t } := rfl

/-- Equation: an empty response body yields the `no METAR` record. -/
theorem processAirport_emptyRaw (t body : String) (rec : Rec) (hraw : pyStrip body = "") :
    processAirport t (.ok body) rec =
      .ok { rec with
            status := "CLOSED", flight_category := "UNK", impact_reason := "no METAR",
            metar_raw := "", metar_time_utc := "", updated_utc := t } := by
  simp only [processAirport]
  rw [if_pos hraw]

/-- Equation: a non-empty body on which the classifier raises propagates the
exception. -/
theorem processAirport_fcError (t body : String) (rec : Rec) (hraw : ¬ pyStrip body = "")
    (e : String)
    (hfc : flight_category_from_metar (chooseMetarLine (pyStrip body)) = .error e) :
    processAirport t (.ok body) rec = .error e := by
  simp only [processAirport]
  rw [if_neg hraw, hfc]

/-- Equation: a non-empty body on which the classifier succeeds writes the
derived fields. -/
theorem processAirport_fcOk (t body : String) (rec : Rec) (hraw : ¬ pyStrip body = "")
    (fc rr : String)
    (hfc : flight_category_from_metar (chooseMetarLine (pyStrip body)) = .ok (fc, rr)) :
    processAirport t (.ok body) rec =
      .ok { rec with
            flight_category := fc,
            status := status_from_flight_cat fc,
            impact_reason :=
              if rr ≠ "" ∧ status_from_flight_cat fc = "IMPACT" then fc ++ ": " ++ rr
              else if status_from_flight_cat fc = "IMPACT" then "Flight rules degraded" else "",
            metar_raw := chooseMetarLine (pyStrip body),
            metar_time_utc := parse_metar_time_utc (chooseMetarLine (pyStrip body)),
            updated_utc := t } := by
  simp only [processAirport]
  rw [if_neg hraw, hfc]

/-- C9, corrected, counterexample: when the METAR fetch raises, the record of
an airport whose prior status was OK is rewritten with status CLOSED, which is
neither UNK nor the prior persisted value. -/
theorem C9_closed_on_error_counterexample :
    processAirport "2026-01-01 01:00" (.error ()) rec0 =
      .ok ⟨"KABE", "CLOSED", "UNK", "METAR fetch error", "", "", "2026-01-01 01:00"⟩ ∧
    rec0.status = "OK" ∧
    ¬("CLOSED" = "UNK" ∨ "CLOSED" = rec0.status) := by
  refine ⟨rfl, rfl, ?_⟩
  exact of_decide_eq_true rfl

/-- C9 amended: on a fetch error the run is not aborted: the affected
airport's record is rewritten in place with status CLOSED, flight category
UNK, impact reason `METAR fetch error` and empty METAR fields, and the loop
continues with the remaining airports. -/
theorem C9_error_fallback_and_continue :
    (∀ (t : String) (r : Rec),
      processAirport t (.error ()) r =
        .ok { r with
              status := "CLOSED", flight_category := "UNK",
              impact_reason := "METAR fetch error", metar_raw := "", metar_time_utc := "",
              updated_utc := t }) ∧
    (∀ (t : String) (fetch : String → Except Unit String) (c : String) (r : Rec)
        (rest : List (String × Rec)),
      fetch c = .error () →
      updateLoop t fetch ((c, r) :: rest) =
        (updateLoop t fetch rest).map (fun l =>
          (c, { r with
                status := "CLOSED", flight_category := "UNK",
                impact_reason := "METAR fetch error", metar_raw := "", metar_time_utc := "",
                updated_utc := t }) :: l)) := by
  constructor
  · intro t r; rfl
  · intro t fetch c r rest hf
    cases h2 : updateLoop t fetch rest with
    | error e =>
      unfold updateLoop
      rw [hf, processAirport_fetchError t () r, h2]
      rfl
    | ok rest2 =>
      unfold updateLoop
      rw [hf, processAirport_fetchError t () r, h2]
      rfl

/-- C9 witness: a run over one airport whose fetch raises produces the CLOSED
fallback record and completes. -/
theorem C9_error_fallback_and_continue_witness :
    updateLoop "2026-01-01 01:00" (fun _ => .error ()) (("ABE", rec0) :: []) =
      (updateLoop "2026-01-01 01:00" (fun _ => .error ()) []).map (fun l =>
        ("ABE", { rec0 with
              status := "CLOSED", flight_category := "UNK",
              impact_reason := "METAR fetch error", metar_raw := "", metar_time_utc := "",
              updated_utc := "2026-01-01 01:00" }) :: l) :=
  C9_error_fallback_and_continue.2 "2026-01-01 01:00" (fun _ => .error ()) "ABE" rec0 [] rfl

/-- C10: for an airport whose raw METAR is fetched and non-empty, the written
status is IMPACT exactly when the computed flight category is MVFR, IFR or
LIFR; VFR and UNK give status OK. -/
theorem C10_impact_iff_degraded (t raw : String) (rec rec2 : Rec)
    (hraw : ¬ pyStrip raw = "")
    (h : processAirport t (.ok raw) rec = .ok rec2) :
    (rec2.status = "IMPACT" ↔
      (rec2.flight_category = "MVFR" ∨ rec2.flight_category = "IFR" ∨
        rec2.flight_category = "LIFR")) ∧
    ((rec2.flight_category = "VFR" ∨ rec2.flight_category = "UNK") → rec2.status = "OK") := by
  cases hfc : flight_category_from_metar (chooseMetarLine (pyStrip raw)) with
  | error e =>
    rw [processAirport_fcError t raw rec hraw e hfc] at h
    cases h
  | ok p =>
    obtain ⟨fc, rr⟩ := p
    rw [processAirport_fcOk t raw rec hraw fc rr hfc] at h
    injection h with h2
    subst h2
    have hmem := flight_category_cases _ _ hfc
    dsimp only at hmem ⊢
    rcases hmem with h5 | h5 | h5 | h5 | h5 <;> subst h5 <;>
      exact ⟨of_decide_eq_true rfl, of_decide_eq_true rfl⟩

/-- C10 witness: the scenario METAR yields category IFR and status IMPACT. -/
theorem C10_impact_iff_degraded_witness :
    (recKmdt.status = "IMPACT" ↔
      (recKmdt.flight_category = "MVFR" ∨ recKmdt.flight_category = "IFR" ∨
        recKmdt.flight_category = "LIFR")) ∧
    ((recKmdt.flight_category = "VFR" ∨ recKmdt.flight_category = "UNK") →
      recKmdt.status = "OK") :=
  C10_impact_iff_degraded "2026-01-01 01:00" kmdtRaw rec0 recKmdt (of_decide_eq_true rfl) rfl

/-- A second pass over an already refreshed record with the same fetch result
changes nothing but the run timestamp. -/
theorem processAirport_twice (t1 t2 : String) (f : Except Unit String) (r r1 : Rec)
    (h : processAirport t1 f r = .ok r1) :
    processAirport t2 f r1 = .ok { r1 with updated_utc := t2 } := by
  cases f with
  | error e =>
    rw [processAirport_fetchError t1 e r] at h
    injection h with h2
    subst h2
    rw [processAirport_fetchError t2 e _]
  | ok body =>
    by_cases hraw : pyStrip body = ""
    · rw [processAirport_emptyRaw t1 body r hraw] at h
      injection h with h2
      subst h2
      rw [processAirport_emptyRaw t2 body _ hraw]
    · cases hfc : flight_category_from_metar (chooseMetarLine (pyStrip body)) with
      | error e =>
        rw [processAirport_fcError t1 body r hraw e hfc] at h
        cases h
      | ok p =>
        obtain ⟨fc, rr⟩ := p
        rw [processAirport_fcOk t1 body r hraw fc rr hfc] at h
        injection h with h2
        subst h2
        rw [processAirport_fcOk t2 body _ hraw fc rr hfc]

/-- A second pass of the whole loop with the same fetch results changes only
the per-record run timestamp. -/
theorem updateLoop_twice (t1 t2 : String) (f : String → Except Unit String) :
    ∀ (aps l1 : List (String × Rec)),
    updateLoop t1 f aps = .ok l1 →
    updateLoop t2 f l1 = .ok (l1.map (fun p => (p.1, { p.2 with updated_utc := t2 }))) := by
  intro aps
  induction aps with
  | nil =>
    intro l1 h
    injection h with h2
    subst h2
    rfl
  | cons p rest ih =>
    intro l1 h
    obtain ⟨c, r⟩ := p
    unfold updateLoop at h
    cases h1 : processAirport t1 (f c) r with
    | error e => rw [h1] at h; simp at h
    | ok r2 =>
      rw [h1] at h
      dsimp only at h
      cases h2 : updateLoop t1 f rest with
      | error e => rw [h2] at h; simp at h
      | ok rest2 =>
        rw [h2] at h
        dsimp only at h
        injection h with h3
        subst h3
        have hp := processAirport_twice t1 t2 (f c) r r2 h1
        have hr := ih rest2 h2
        unfold updateLoop
        rw [hp]
        dsimp only
        rw [hr]
        rfl

/-! Lemmas about the update_metar build and merge. -/

theorem buildLoop_characterization (prev : String → Option PrevRec) (rows : List Row) :
    ∀ (regs : Regions) (aps : List (String × ARec)),
    buildLoop prev rows regs aps =
      ((selRows rows (aps.map Prod.fst)).foldl addRegion regs,
       aps ++ (selRows rows (aps.map Prod.fst)).map
         (fun s => (s.code, initRec s.icao (prev s.code)))) := by
  induction rows with
  | nil => intro regs aps; simp [buildLoop, selRows]
  | cons r rest ih =>
    intro regs aps
    cases hri : rowInfo r with
    | none =>
      simp only [buildLoop, selRows, hri]
      exact ih regs aps
    | some sel =>
      simp only [buildLoop, selRows, hri]
      by_cases hmem : sel.code ∈ aps.map Prod.fst
      · have hck : containsKeyB sel.code aps = true := (containsKeyB_iff _ _).mpr hmem
        rw [if_pos hck, if_pos hmem]
        exact ih regs aps
      · have hck : ¬ containsKeyB sel.code aps = true := by
          rw [containsKeyB_iff]; exact hmem
        rw [if_neg hck, if_neg hmem]
        rw [ih (addRegion regs sel) (aps ++ [(sel.code, initRec sel.icao (prev sel.code))])]
        have hkeys : (aps ++ [(sel.code, initRec sel.icao (prev sel.code))]).map Prod.fst
            = aps.map Prod.fst ++ [sel.code] := by simp
        rw [hkeys]
        simp [List.append_assoc]

theorem selRows_nodup (rows : List Row) :
    ∀ seen, ((selRows rows seen).map (fun s => s.code)).Nodup ∧
      (∀ s ∈ selRows rows seen, ¬ s.code ∈ seen) := by
  induction rows with
  | nil => intro seen; exact ⟨by simp [selRows], by simp [selRows]⟩
  | cons r rest ih =>
    intro seen
    cases hri : rowInfo r with
    | none => simpa [selRows, hri] using ih seen
    | some sel =>
      by_cases hmem : sel.code ∈ seen
      · simpa [selRows, hri, hmem] using ih seen
      · have h2 := ih (seen ++ [sel.code])
        constructor
        · rw [selRows, hri]
          dsimp only
          rw [if_neg hmem]
          rw [List.map_cons, List.nodup_cons]
          constructor
          · intro hin
            obtain ⟨s, hs, hcode⟩ := List.mem_map.mp hin
            exact (h2.2 s hs) (by simp [hcode])
          · exact h2.1
        · intro s hs
          rw [selRows, hri] at hs
          dsimp only at hs
          rw [if_neg hmem] at hs
          rcases List.mem_cons.mp hs with rfl | hs2
          · exact hmem
          · intro hseen
            exact (h2.2 s hs2) (by simp [hseen])

theorem alookup_selmap {β : Type} (f : RowSel → β) :
    ∀ (sel : List RowSel), ((sel.map (fun s => s.code)).Nodup) →
    ∀ s ∈ sel, alookup s.code (sel.map (fun t => (t.code, f t))) = some (f s) := by
  intro sel
  induction sel with
  | nil => intro _ s hs; cases hs
  | cons t rest ih =>
    intro hnd s hs
    rw [List.map_cons, List.nodup_cons] at hnd
    rcases List.mem_cons.mp hs with rfl | hs2
    · simp [alookup]
    · have hne : ¬ t.code = s.code := by
        intro heq
        exact hnd.1 (List.mem_map.mpr ⟨s, hs2, heq.symm⟩)
      rw [List.map_cons]
      show alookup s.code ((t.code, f t) :: rest.map (fun t => (t.code, f t))) = some (f s)
      rw [alookup, if_neg hne]
      exact ih hnd.2 s hs2

theorem alookup_selmap_inv {β : Type} (f : RowSel → β) :
    ∀ (sel : List RowSel) (code : String) (v : β),
    alookup code (sel.map (fun t => (t.code, f t))) = some v →
    ∃ s, s ∈ sel ∧ s.code = code ∧ v = f s := by
  intro sel
  induction sel with
  | nil => intro code v h; cases h
  | cons t rest ih =>
    intro code v h
    rw [List.map_cons, alookup] at h
    by_cases he : t.code = code
    · rw [if_pos he] at h
      injection h with h2
      exact ⟨t, List.mem_cons_self t rest, he, h2.symm⟩
    · rw [if_neg he] at h
      obtain ⟨s, hs, hc, hv⟩ := ih code v h
      exact ⟨s, List.mem_cons_of_mem t hs, hc, hv⟩

theorem updateMetarRec_eq_none (mm : List (String × MetarInfo)) (r : ARec)
    (hm : alookup (pyUpper (pyStrip r.icao)) mm = none) :
    updateMetarRec mm r = { r with flight_category := norm_fc r.flight_category } := by
  unfold updateMetarRec
  dsimp only
  rw [hm]

theorem updateMetarRec_eq_some (mm : List (String × MetarInfo)) (r : ARec) (m : MetarInfo)
    (hm : alookup (pyUpper (pyStrip r.icao)) mm = some m) :
    updateMetarRec mm r =
      { r with flight_category := norm_fc m.flight_category,
               metar_raw := pyStrip m.raw_text,
               metar_time_utc := pyStrip m.observation_time } := by
  unfold updateMetarRec
  dsimp only
  rw [hm]

theorem updateMetarRec_status (mm : List (String × MetarInfo)) (r : ARec) :
    (updateMetarRec mm r).status = r.status := by
  unfold updateMetarRec
  dsimp only
  cases alookup (pyUpper (pyStrip r.icao)) mm <;> rfl

theorem updateMetarRec_impact_reason (mm : List (String × MetarInfo)) (r : ARec) :
    (updateMetarRec mm r).impact_reason = r.impact_reason := by
  unfold updateMetarRec
  dsimp only
  cases alookup (pyUpper (pyStrip r.icao)) mm <;> rfl

theorem updateMetarRec_icao (mm : List (String × MetarInfo)) (r : ARec) :
    (updateMetarRec mm r).icao = r.icao := by
  unfold updateMetarRec
  dsimp only
  cases alookup (pyUpper (pyStrip r.icao)) mm <;> rfl

theorem norm_fc_mem (x : String) :
    norm_fc x = "VFR" ∨ norm_fc x = "MVFR" ∨ norm_fc x = "IFR" ∨ norm_fc x = "LIFR" ∨
      norm_fc x = "UNK" := by
  unfold norm_fc
  dsimp only
  set v := pyUpper (pyStrip (if x = "" then "UNK" else x)) with hv
  by_cases h : v = "VFR" ∨ v = "MVFR" ∨ v = "IFR" ∨ v = "LIFR"
  · rw [if_pos h]
    rcases h with h | h | h | h <;> simp [h]
  · rw [if_neg h]
    simp

theorem norm_fc_idem (x : String) : norm_fc (norm_fc x) = norm_fc x := by
  rcases norm_fc_mem x with h | h | h | h | h <;> rw [h] <;> rfl

theorem initRec_toPrev (i : String) (r : ARec) (h : r.icao = i) :
    initRec i (some r.toPrev) = r := by
  cases r
  simp_all [initRec, ARec.toPrev]

theorem updateMetarRec_idem (mm : List (String × MetarInfo)) (r : ARec) :
    updateMetarRec mm (updateMetarRec mm r) = updateMetarRec mm r := by
  cases hm : alookup (pyUpper (pyStrip r.icao)) mm with
  | none =>
    rw [updateMetarRec_eq_none mm r hm]
    rw [updateMetarRec_eq_none mm _ (by dsimp only; exact hm)]
    dsimp only
    rw [norm_fc_idem]
  | some m =>
    rw [updateMetarRec_eq_some mm r m hm]
    rw [updateMetarRec_eq_some mm _ m (by dsimp only; exact hm)]

theorem update_metar_idem (existing : List (String × PrevRec)) (rows : List Row)
    (mm : List (String × MetarInfo)) :
    update_metar_main ((update_metar_main existing rows mm).2.map (fun p => (p.1, p.2.toPrev)))
      rows mm = update_metar_main existing rows mm := by
  unfold update_metar_main
  rw [buildLoop_characterization, buildLoop_characterization]
  dsimp only
  have hnil : (([] : List (String × ARec)).map Prod.fst) = [] := rfl
  rw [hnil]
  refine Prod.ext rfl ?_
  dsimp only
  rw [List.nil_append, List.nil_append]
  simp only [List.map_map]
  apply List.map_congr_left
  intro s hs
  simp only [Function.comp_def]
  have hnd := (selRows_nodup rows []).1
  have hlook : alookup s.code
      ((selRows rows []).map (fun t => (t.code,
        updateMetarRec mm (initRec t.icao (alookup t.code existing)) |>.toPrev))) =
      some ((updateMetarRec mm (initRec s.icao (alookup s.code existing))).toPrev) :=
    alookup_selmap (fun t => (updateMetarRec mm (initRec t.icao (alookup t.code existing))).toPrev)
      (selRows rows []) hnd s hs
  rw [hlook]
  have hicao : (updateMetarRec mm (initRec s.icao (alookup s.code existing))).icao = s.icao := by
    rw [updateMetarRec_icao]
    rfl
  rw [initRec_toPrev s.icao _ hicao]
  rw [updateMetarRec_idem]

/-- C5: the merge carries manual fields forward: for every airport present in
both the prior snapshot and the fresh station list, the output status and
impact reason equal the prior values (the run derives no closure or impact
data). -/
theorem C5_manual_fields_preserved (existing : List (String × PrevRec)) (rows : List Row)
    (mm : List (String × MetarInfo)) (code : String) (rec : ARec) (p : PrevRec)
    (s ir : String)
    (hrec : alookup code (update_metar_main existing rows mm).2 = some rec)
    (hp : alookup code existing = some p)
    (hs : p.status = some s) (hi : p.impact_reason = some ir) :
    rec.status = s ∧ rec.impact_reason = ir := by
  unfold update_metar_main at hrec
  rw [buildLoop_characterization] at hrec
  dsimp only at hrec
  rw [List.nil_append, List.map_map] at hrec
  obtain ⟨t, ht, htc, hv⟩ := alookup_selmap_inv _ _ _ _ hrec
  subst hv
  simp only [Function.comp_def]
  constructor
  · rw [updateMetarRec_status, htc, hp]
    show (p.status).getD "OK" = s
    rw [hs]
    rfl
  · rw [updateMetarRec_impact_reason, htc, hp]
    show (p.impact_reason).getD "" = ir
    rw [hi]
    rfl

/-- C5 witness: a prior record with a manual IMPACT status and a free-text
impact reason survives a refresh that fetches a METAR for the airport. -/
theorem C5_manual_fields_preserved_witness :
    recMDT.status = "IMPACT" ∧ recMDT.impact_reason = "foo" :=
  C5_manual_fields_preserved priorMDT (rowMDT :: []) mmKMDT "MDT" recMDT
    ⟨some "IMPACT", some "foo", none, none, none⟩ "IMPACT" "foo" rfl rfl rfl rfl

/-- C6, corrected, counterexample: re-running the update_status refresh five
minutes later over its own output rewrites every record's per-airport
`updated_utc` field, so the airports map of the second snapshot is not
byte-identical to the first. -/
theorem C6_not_byte_identical_counterexample :
    updateLoop "2026-01-01 00:00" (fun _ => .ok kmdtRaw) (("MDT", rec0) :: []) =
      .ok (("MDT", recRun1) :: []) ∧
    updateLoop "2026-01-01 00:05" (fun _ => .ok kmdtRaw) (("MDT", recRun1) :: []) =
      .ok (("MDT", recRun2) :: []) ∧
    ¬(("MDT", recRun2) :: [] = ("MDT", recRun1) :: []) := by
  refine ⟨rfl, rfl, ?_⟩
  exact of_decide_eq_true rfl

/-- C6 amended: re-running with unchanged remote data changes only
timestamps: `update_metar.py` reproduces identical `regions` and `airports`
maps, and `update_status.py` reproduces every airport record unchanged except
its `updated_utc` field, so the snapshot differs only in `generated_utc` and
in the per-record `updated_utc` of the latter script. -/
theorem C6_idempotent_modulo_timestamps :
    (∀ (existing : List (String × PrevRec)) (rows : List Row)
        (mm : List (String × MetarInfo)),
      update_metar_main
          ((update_metar_main existing rows mm).2.map (fun p => (p.1, p.2.toPrev)))
          rows mm =
        update_metar_main existing rows mm) ∧
    (∀ (t1 t2 : String) (f : String → Except Unit String) (aps l1 : List (String × Rec)),
      updateLoop t1 f aps = .ok l1 →
      updateLoop t2 f l1 = .ok (l1.map (fun p => (p.1, { p.2 with updated_utc := t2 })))) :=
  ⟨update_metar_idem, fun t1 t2 f aps l1 h => updateLoop_twice t1 t2 f aps l1 h⟩

/-- C6 witness: a second update_status pass over its own output only rewrites
the run timestamp of each record. -/
theorem C6_idempotent_modulo_timestamps_witness :
    updateLoop "2026-01-01 00:05" (fun _ => .ok kmdtRaw) (("MDT", recRun1) :: []) =
      .ok ((("MDT", recRun1) :: []).map
        (fun p => (p.1, { p.2 with updated_utc := "2026-01-01 00:05" }))) :=
  C6_idempotent_modulo_timestamps.2 "2026-01-01 00:00" "2026-01-01 00:05"
    (fun _ => .ok kmdtRaw) (("MDT", rec0) :: []) (("MDT", recRun1) :: []) rfl

/-! Lemmas about the fetch_faa status assembly. -/

theorem alookup_updateAssoc (m : List (String × FStatus)) (k k2 : String)
    (f : FStatus → FStatus) :
    alookup k2 (updateAssoc m k f) =
      if k2 = k then (alookup k m).map f else alookup k2 m := by
  induction m with
  | nil => by_cases h : k2 = k <;> simp [updateAssoc, alookup, h]
  | cons p rest ih =>
    by_cases h1 : p.1 = k2
    · by_cases h2 : p.1 = k
      · have h3 : k2 = k := h1 ▸ h2
        subst h3
        simp [updateAssoc, alookup, h1, h2]
      · have h3 : ¬(k2 = k) := fun hx => h2 (h1.trans hx)
        simp [updateAssoc, alookup, h1, h2, h3]
    · by_cases h2 : p.1 = k
      · by_cases h4 : k2 = k
        · subst h4
          exact absurd h2 h1
        · simp only [updateAssoc, List.map_cons, if_pos h2, alookup, if_neg h1, if_neg h4] at ih ⊢
          have h5 : ¬((k, f p.2) : String × FStatus).1 = k2 := fun hx => h4 hx.symm
          simpa [updateAssoc] using ih
      · by_cases h4 : k2 = k
        · subst h4
          simp only [updateAssoc, List.map_cons, if_neg h2, alookup, if_neg h1] at ih ⊢
          simpa [updateAssoc] using ih
        · simp only [updateAssoc, List.map_cons, if_neg h2, alookup, if_neg h1, if_neg h4] at ih ⊢
          simpa [updateAssoc] using ih

theorem foldl_updateAssoc_alookup {β : Type} (g : β → FStatus → FStatus) (code : String) :
    ∀ (xs : List (String × β)) (m : List (String × FStatus)),
    (xs.map Prod.fst).Nodup →
    alookup code (xs.foldl (fun acc p => updateAssoc acc p.1 (g p.2)) m) =
      match alookup code xs with
      | some b => (alookup code m).map (g b)
      | none => alookup code m := by
  intro xs
  induction xs with
  | nil => intro m _; rfl
  | cons p rest ih =>
    intro m hnd
    rw [List.map_cons, List.nodup_cons] at hnd
    rw [List.foldl_cons, ih _ hnd.2]
    by_cases h : code = p.1
    · have h2 : p.1 = code := h.symm
      have hrest : alookup code rest = none := by
        cases hx : alookup code rest with
        | none => rfl
        | some v =>
          exfalso
          apply hnd.1
          rw [← h]
          exact (alookup_isSome_iff code rest).mp (by rw [hx]; rfl)
      have hR : alookup code (p :: rest) = some p.2 := by
        simp only [alookup, if_pos h2]
      rw [hrest, hR, alookup_updateAssoc, if_pos h, h]
    · have h2 : ¬(p.1 = code) := fun hx => h hx.symm
      have hR : alookup code (p :: rest) = alookup code rest := by
        simp only [alookup, if_neg h2]
      rw [hR]
      cases hx : alookup code rest with
      | none =>
        show alookup code (updateAssoc m p.1 (g p.2)) = alookup code m
        rw [alookup_updateAssoc, if_neg h]
      | some b =>
        show (alookup code (updateAssoc m p.1 (g p.2))).map (g b) = (alookup code m).map (g b)
        rw [alookup_updateAssoc, if_neg h]

theorem assemble_status_reason (cls imps fcm : List (String × String)) (code : String)
    (h1 : (cls.map Prod.fst).Nodup) (h2 : (imps.map Prod.fst).Nodup)
    (hc : code ∈ PA_CODES) :
    (alookup code (assemble cls imps fcm)).map FStatus.status =
      some (if containsKeyB code cls then "CLOSED"
            else if containsKeyB code imps then "IMPACT" else "OK") ∧
    (alookup code (assemble cls imps fcm)).map FStatus.closure_reason =
      some ((alookup code cls).getD "") := by
  unfold assemble
  dsimp only
  have hfoldmap : AIRPORTS.foldl (fun m a => updateAssoc m a.code
        (fun st => { st with flight_category := (alookup (pyUpper a.metar) fcm).getD "UNK" }))
      (imps.foldl (fun m p => updateAssoc m p.1
        (fun st => if st.closed then st
          else { st with status := "IMPACT", events := [("Impact", p.2)] }))
        (cls.foldl (fun m p => updateAssoc m p.1
          (fun st => { st with status := "CLOSED", closed := true, closure_reason := p.2 }))
          (PA_CODES.map (fun c => (c, defaultFStatus c))))) =
      (AIRPORTS.map (fun a => (a.code, a.metar))).foldl (fun m p => updateAssoc m p.1
        ((fun mt st => { st with flight_category := (alookup (pyUpper mt) fcm).getD "UNK" }) p.2))
      (imps.foldl (fun m p => updateAssoc m p.1
        (fun st => if st.closed then st
          else { st with status := "IMPACT", events := [("Impact", p.2)] }))
        (cls.foldl (fun m p => updateAssoc m p.1
          (fun st => { st with status := "CLOSED", closed := true, closure_reason := p.2 }))
          (PA_CODES.map (fun c => (c, defaultFStatus c))))) := by
    rw [List.foldl_map]
  rw [hfoldmap]
  have hairnd : ((AIRPORTS.map (fun a => (a.code, a.metar))).map Prod.fst).Nodup := by
    rw [List.map_map]
    exact of_decide_eq_true rfl
  rw [foldl_updateAssoc_alookup
    (fun mt st => { st with flight_category := (alookup (pyUpper mt) fcm).getD "UNK" })
    code (AIRPORTS.map (fun a => (a.code, a.metar))) _ hairnd]
  have hsome : ∃ mt, alookup code (AIRPORTS.map (fun a => (a.code, a.metar))) = some mt := by
    have hmem : code ∈ (AIRPORTS.map (fun a => (a.code, a.metar))).map Prod.fst := by
      rw [List.map_map]
      exact hc
    obtain ⟨mt, hmt⟩ := Option.isSome_iff_exists.mp ((alookup_isSome_iff _ _).mpr hmem)
    exact ⟨mt, hmt⟩
  obtain ⟨mt, hmt⟩ := hsome
  rw [hmt]
  rw [foldl_updateAssoc_alookup
    (fun r st => if st.closed then st
      else { st with status := "IMPACT", events := [("Impact", r)] })
    code imps _ h2]
  rw [foldl_updateAssoc_alookup
    (fun r st => { st with status := "CLOSED", closed := true, closure_reason := r })
    code cls _ h1]
  rw [alookup_map_self]
  rw [if_pos hc]
  rw [containsKeyB, containsKeyB]
  cases hcl : alookup code cls with
  | some r =>
    cases him : alookup code imps with
    | some r2 => exact ⟨rfl, rfl⟩
    | none => exact ⟨rfl, rfl⟩
  | none =>
    cases him : alookup code imps with
    | some r2 => exact ⟨rfl, rfl⟩
    | none => exact ⟨rfl, rfl⟩

/-- C3: status precedence in the FAA assembly is CLOSED over IMPACT over OK:
an airport named by a closures entry is CLOSED with that closure reason, and
no impacts entry downgrades it; an airport named only by impacts entries is
IMPACT; any other airport is OK.  On the scenario feed holding the single
closure event for ABE with reason `Snow removal`, the output for ABE has
status CLOSED and closure reason `Snow removal`. -/
theorem C3_precedence_and_scenario :
    (∀ (cls imps fcm : List (String × String)) (code : String),
      (cls.map Prod.fst).Nodup → (imps.map Prod.fst).Nodup →
      code ∈ PA_CODES →
      (alookup code (assemble cls imps fcm)).map FStatus.status =
        some (if containsKeyB code cls then "CLOSED"
              else if containsKeyB code imps then "IMPACT" else "OK") ∧
      (alookup code (assemble cls imps fcm)).map FStatus.closure_reason =
        some ((alookup code cls).getD "")) ∧
    ((alookup "ABE" (faa_main scenarioLists [])).map FStatus.status = some "CLOSED" ∧
     (alookup "ABE" (faa_main scenarioLists [])).map FStatus.closure_reason =
       some "Snow removal") :=
  ⟨fun cls imps fcm code h1 h2 hc => assemble_status_reason cls imps fcm code h1 h2 hc,
   ⟨rfl, rfl⟩⟩

/-- C3 witness: one closures entry for ABE gives ABE status CLOSED with its
reason, with no impacts present. -/
theorem C3_precedence_and_scenario_witness :
    (alookup "ABE" (assemble (("ABE", "Snow removal") :: []) [] [])).map FStatus.status =
      some "CLOSED" ∧
    (alookup "ABE" (assemble (("ABE", "Snow removal") :: []) [] [])).map
        FStatus.closure_reason = some "Snow removal" := by
  have h := C3_precedence_and_scenario.1 (("ABE", "Snow removal") :: []) [] [] "ABE"
    (of_decide_eq_true rfl) (of_decide_eq_true rfl) (of_decide_eq_true rfl)
  exact ⟨h.1.trans rfl, h.2.trans rfl⟩

/-! Characterization of the fetch routing. -/

theorem routeNode_none (isCl : Bool) (acc : List (String × String) × List (String × String))
    (n : AirportNode) (h : nodeCode n = none) : routeNode isCl acc n = acc := by
  unfold routeNode
  rw [h]

theorem routeNode_some_closure (acc : List (String × String) × List (String × String))
    (n : AirportNode) (arpt : String) (h : nodeCode n = some arpt) :
    routeNode true acc n = (insertOverwrite acc.1 arpt (nodeReason n), acc.2) := by
  unfold routeNode
  rw [h]
  rfl

theorem routeNode_some_impact (acc : List (String × String) × List (String × String))
    (n : AirportNode) (arpt : String) (h : nodeCode n = some arpt) :
    routeNode false acc n = (acc.1, insertDefault acc.2 arpt (nodeReason n)) := by
  unfold routeNode
  rw [h]
  rfl

theorem routeNode_fold_closure (nodes : List AirportNode) :
    ∀ (acc : List (String × String) × List (String × String)),
    nodes.foldl (routeNode true) acc =
      ((nodes.filterMap (fun n => (nodeCode n).map (fun c => (c, nodeReason n)))).foldl
        (fun m e => insertOverwrite m e.1 e.2) acc.1, acc.2) := by
  induction nodes with
  | nil => intro acc; rfl
  | cons n rest ih =>
    intro acc
    rw [List.foldl_cons, List.filterMap_cons]
    cases hnc : nodeCode n with
    | none =>
      rw [routeNode_none true acc n hnc, ih acc]
      rfl
    | some arpt =>
      rw [routeNode_some_closure acc n arpt hnc,
        ih (insertOverwrite acc.1 arpt (nodeReason n), acc.2)]
      rfl

theorem routeNode_fold_impact (nodes : List AirportNode) :
    ∀ (acc : List (String × String) × List (String × String)),
    nodes.foldl (routeNode false) acc =
      (acc.1, (nodes.filterMap (fun n => (nodeCode n).map (fun c => (c, nodeReason n)))).foldl
        (fun m e => insertDefault m e.1 e.2) acc.2) := by
  induction nodes with
  | nil => intro acc; rfl
  | cons n rest ih =>
    intro acc
    rw [List.foldl_cons, List.filterMap_cons]
    cases hnc : nodeCode n with
    | none =>
      rw [routeNode_none false acc n hnc, ih acc]
      rfl
    | some arpt =>
      rw [routeNode_some_impact acc n arpt hnc,
        ih (acc.1, insertDefault acc.2 arpt (nodeReason n))]
      rfl

theorem closureEntries_cons_closure (l : XmlList) (rest : List XmlList)
    (hend : strEndsWith l.tag "_List" = true) (hcl : isClosureTag l.tag = true) :
    closureEntries (l :: rest) = listEntries l ++ closureEntries rest := by
  unfold closureEntries
  rw [List.filter_cons, if_pos (by rw [hend, hcl]; rfl), List.flatMap_cons]

theorem closureEntries_cons_skip (l : XmlList) (rest : List XmlList)
    (h : ¬(strEndsWith l.tag "_List" && isClosureTag l.tag) = true) :
    closureEntries (l :: rest) = closureEntries rest := by
  unfold closureEntries
  rw [List.filter_cons, if_neg h]

theorem impactEntries_cons_impact (l : XmlList) (rest : List XmlList)
    (hend : strEndsWith l.tag "_List" = true) (hcl : ¬ isClosureTag l.tag = true) :
    impactEntries (l :: rest) = listEntries l ++ impactEntries rest := by
  unfold impactEntries
  rw [List.filter_cons, if_pos (by rw [hend]; simp [hcl]), List.flatMap_cons]

theorem impactEntries_cons_skip (l : XmlList) (rest : List XmlList)
    (h : ¬(strEndsWith l.tag "_List" && !isClosureTag l.tag) = true) :
    impactEntries (l :: rest) = impactEntries rest := by
  unfold impactEntries
  rw [List.filter_cons, if_neg h]

theorem fetch_characterization (ls : List XmlList) :
    ∀ (acc : List (String × String) × List (String × String)),
    ls.foldl (fun acc l =>
      if !(strEndsWith l.tag "_List") then acc
      else l.airports.foldl (routeNode (isClosureTag l.tag)) acc) acc =
      ((closureEntries ls).foldl (fun m e => insertOverwrite m e.1 e.2) acc.1,
       (impactEntries ls).foldl (fun m e => insertDefault m e.1 e.2) acc.2) := by
  induction ls with
  | nil => intro acc; rfl
  | cons l rest ih =>
    intro acc
    rw [List.foldl_cons]
    by_cases hend : strEndsWith l.tag "_List" = true
    · have hnotend : ¬(!(strEndsWith l.tag "_List")) = true := by rw [hend]; simp
      rw [if_neg hnotend]
      by_cases hcl : isClosureTag l.tag = true
      · rw [hcl, routeNode_fold_closure l.airports acc, ih _,
          closureEntries_cons_closure l rest hend hcl,
          impactEntries_cons_skip l rest (by rw [hend, hcl]; simp), List.foldl_append]
        rfl
      · have hcl2 : isClosureTag l.tag = false := by
          cases hx : isClosureTag l.tag with
          | true => exact absurd hx hcl
          | false => rfl
        rw [hcl2, routeNode_fold_impact l.airports acc, ih _,
          impactEntries_cons_impact l rest hend hcl,
          closureEntries_cons_skip l rest (by rw [hend, hcl2]; simp), List.foldl_append]
        rfl
    · have hnotend : (!(strEndsWith l.tag "_List")) = true := by
        cases hx : strEndsWith l.tag "_List" with
        | true => exact absurd hx hend
        | false => rfl
      rw [if_pos hnotend, ih acc,
        closureEntries_cons_skip l rest (by simp [hend]),
        impactEntries_cons_skip l rest (by simp [hend])]

theorem fetch_fst_eq (ls : List XmlList) :
    (fetch_airport_status_information ls).1 =
      (closureEntries ls).foldl (fun m e => insertOverwrite m e.1 e.2) [] := by
  unfold fetch_airport_status_information
  rw [fetch_characterization]

theorem fetch_snd_eq (ls : List XmlList) :
    (fetch_airport_status_information ls).2 =
      (impactEntries ls).foldl (fun m e => insertDefault m e.1 e.2) [] := by
  unfold fetch_airport_status_information
  rw [fetch_characterization]

/-! Last-write and first-write values of the fetch dictionaries. -/

theorem lastVal_foldl_general (k : String) (es : List (String × String)) :
    ∀ (r0 : Option String),
    es.foldl (fun r e => if e.1 = k then some e.2 else r) r0 =
      match lastVal es k with
      | some v => some v
      | none => r0 := by
  induction es with
  | nil => intro r0; rfl
  | cons e rest ih =>
    intro r0
    rw [List.foldl_cons, ih]
    have h2 : lastVal (e :: rest) k =
        match lastVal rest k with
        | some v => some v
        | none => if e.1 = k then some e.2 else none := by
      unfold lastVal
      rw [List.foldl_cons, ih]
      rfl
    rw [h2]
    cases lastVal rest k with
    | some v => rfl
    | none =>
      by_cases he : e.1 = k
      · rw [if_pos he, if_pos he]
      · rw [if_neg he, if_neg he]

theorem lastVal_cons (e : String × String) (rest : List (String × String)) (k : String) :
    lastVal (e :: rest) k =
      match lastVal rest k with
      | some v => some v
      | none => if e.1 = k then some e.2 else none := by
  unfold lastVal
  rw [List.foldl_cons, lastVal_foldl_general]
  rfl

theorem alookup_foldl_insertOverwrite (k : String) (es : List (String × String)) :
    ∀ (acc : List (String × String)),
    alookup k (es.foldl (fun m e => insertOverwrite m e.1 e.2) acc) =
      match lastVal es k with
      | some v => some v
      | none => alookup k acc := by
  induction es with
  | nil => intro acc; rfl
  | cons e rest ih =>
    intro acc
    rw [List.foldl_cons, ih, lastVal_cons]
    cases lastVal rest k with
    | some v => rfl
    | none =>
      show alookup k (insertOverwrite acc e.1 e.2) = _
      rw [alookup_insertOverwrite]
      by_cases he : e.1 = k
      · rw [if_pos he.symm, if_pos he]
      · have he2 : ¬(k = e.1) := fun hx => he hx.symm
        rw [if_neg he2, if_neg he]

theorem firstVal_cons (e : String × String) (rest : List (String × String)) (k : String) :
    firstVal (e :: rest) k = if e.1 = k then some e.2 else firstVal rest k := rfl

theorem alookup_foldl_insertDefault (k : String) (es : List (String × String)) :
    ∀ (acc : List (String × String)),
    alookup k (es.foldl (fun m e => insertDefault m e.1 e.2) acc) =
      match alookup k acc with
      | some v => some v
      | none => firstVal es k := by
  induction es with
  | nil =>
    intro acc
    rw [List.foldl_nil]
    cases alookup k acc <;> rfl
  | cons e rest ih =>
    intro acc
    rw [List.foldl_cons, ih, firstVal_cons, alookup_insertDefault]
    by_cases he : k = e.1
    · rw [if_pos he, if_pos (show e.1 = k from he.symm)]
      cases alookup k acc with
      | some w => rfl
      | none => rfl
    · have he2 : ¬(e.1 = k) := fun hx => he hx.symm
      rw [if_neg he, if_neg he2]

theorem fetch_closures_alookup (ls : List XmlList) (code : String) :
    alookup code (fetch_airport_status_information ls).1 =
      lastVal (closureEntries ls) code := by
  rw [fetch_fst_eq, alookup_foldl_insertOverwrite]
  cases lastVal (closureEntries ls) code <;> rfl

theorem fetch_impacts_alookup (ls : List XmlList) (code : String) :
    alookup code (fetch_airport_status_information ls).2 =
      firstVal (impactEntries ls) code := by
  rw [fetch_snd_eq, alookup_foldl_insertDefault]
  rfl

theorem lastVal_isSome_iff (es : List (String × String)) (k : String) :
    (lastVal es k).isSome = true ↔ ∃ e ∈ es, e.1 = k := by
  induction es with
  | nil => simp [lastVal]
  | cons e rest ih =>
    rw [lastVal_cons]
    cases hx : lastVal rest k with
    | some v =>
      constructor
      · intro _
        obtain ⟨e2, he2, hk⟩ := ih.mp (by rw [hx]; rfl)
        exact ⟨e2, List.mem_cons_of_mem e he2, hk⟩
      · intro _
        rfl
    | none =>
      by_cases he : e.1 = k
      · rw [if_pos he]
        constructor
        · intro _
          exact ⟨e, List.mem_cons_self e rest, he⟩
        · intro _
          rfl
      · rw [if_neg he]
        constructor
        · intro hfalse
          exact absurd hfalse (by simp)
        · rintro ⟨e2, he2, hk⟩
          rcases List.mem_cons.mp he2 with rfl | he3
          · exact absurd hk he
          · have := ih.mpr ⟨e2, he3, hk⟩
            rw [hx] at this
            exact absurd this (by simp)

/-! Key discipline of the fetch dictionaries. -/

theorem insertOverwrite_keys {β : Type} (l : List (String × β)) (k : String) (v : β) :
    (insertOverwrite l k v).map Prod.fst =
      if containsKeyB k l then l.map Prod.fst else l.map Prod.fst ++ [k] := by
  unfold insertOverwrite
  by_cases h : containsKeyB k l = true
  · rw [if_pos h, if_pos h, List.map_map]
    apply List.map_congr_left
    intro p hp
    by_cases h2 : p.1 = k
    · simp [Function.comp_def, h2]
    · simp [Function.comp_def, h2]
  · rw [if_neg h, if_neg h, List.map_append]
    rfl

theorem insertDefault_keys {β : Type} (l : List (String × β)) (k : String) (v : β) :
    (insertDefault l k v).map Prod.fst =
      if containsKeyB k l then l.map Prod.fst else l.map Prod.fst ++ [k] := by
  unfold insertDefault
  by_cases h : containsKeyB k l = true
  · rw [if_pos h, if_pos h]
  · rw [if_neg h, if_neg h, List.map_append]
    rfl

theorem keys_step_nodup {β : Type} (l : List (String × β)) (k : String) (v : β)
    (hkeys : (insertOverwrite l k v).map Prod.fst =
      if containsKeyB k l then l.map Prod.fst else l.map Prod.fst ++ [k])
    (h : (l.map Prod.fst).Nodup) : ((insertOverwrite l k v).map Prod.fst).Nodup := by
  rw [hkeys]
  by_cases hk : containsKeyB k l = true
  · rw [if_pos hk]
    exact h
  · rw [if_neg hk]
    have hmem : ¬ k ∈ l.map Prod.fst := fun hx => hk ((containsKeyB_iff _ _).mpr hx)
    simp [List.nodup_append, h, hmem]

theorem keys_step_nodup_default {β : Type} (l : List (String × β)) (k : String) (v : β)
    (h : (l.map Prod.fst).Nodup) : ((insertDefault l k v).map Prod.fst).Nodup := by
  rw [insertDefault_keys]
  by_cases hk : containsKeyB k l = true
  · rw [if_pos hk]
    exact h
  · rw [if_neg hk]
    have hmem : ¬ k ∈ l.map Prod.fst := fun hx => hk ((containsKeyB_iff _ _).mpr hx)
    simp [List.nodup_append, h, hmem]

theorem foldl_insertOverwrite_nodup (es : List (String × String)) :
    ∀ acc : List (String × String), (acc.map Prod.fst).Nodup →
    ((es.foldl (fun m e => insertOverwrite m e.1 e.2) acc).map Prod.fst).Nodup := by
  induction es with
  | nil => intro acc h; exact h
  | cons e rest ih =>
    intro acc h
    rw [List.foldl_cons]
    exact ih _ (keys_step_nodup acc e.1 e.2 (insertOverwrite_keys acc e.1 e.2) h)

theorem foldl_insertDefault_nodup (es : List (String × String)) :
    ∀ acc : List (String × String), (acc.map Prod.fst).Nodup →
    ((es.foldl (fun m e => insertDefault m e.1 e.2) acc).map Prod.fst).Nodup := by
  induction es with
  | nil => intro acc h; exact h
  | cons e rest ih =>
    intro acc h
    rw [List.foldl_cons]
    exact ih _ (keys_step_nodup_default acc e.1 e.2 h)

theorem fetch_fst_nodup (ls : List XmlList) :
    ((fetch_airport_status_information ls).1.map Prod.fst).Nodup := by
  rw [fetch_fst_eq]
  exact foldl_insertOverwrite_nodup _ [] List.nodup_nil

theorem fetch_snd_nodup (ls : List XmlList) :
    ((fetch_airport_status_information ls).2.map Prod.fst).Nodup := by
  rw [fetch_snd_eq]
  exact foldl_insertDefault_nodup _ [] List.nodup_nil

theorem listEntries_key_iff (l : XmlList) (code : String) :
    (∃ e ∈ listEntries l, e.1 = code) ↔ ∃ n ∈ l.airports, nodeCode n = some code := by
  unfold listEntries
  constructor
  · rintro ⟨e, he, hk⟩
    rw [List.mem_filterMap] at he
    obtain ⟨n, hn, hf⟩ := he
    cases hopt : nodeCode n with
    | none =>
      rw [hopt] at hf
      exact absurd hf (by simp)
    | some c =>
      rw [hopt] at hf
      simp only [Option.map_some'] at hf
      injection hf with hf
      refine ⟨n, hn, ?_⟩
      rw [hopt, ← hk, ← hf]
  · rintro ⟨n, hn, hc⟩
    refine ⟨(code, nodeReason n), ?_, rfl⟩
    rw [List.mem_filterMap]
    exact ⟨n, hn, by rw [hc]; rfl⟩

theorem closureEntries_exists_iff (ls : List XmlList) (code : String) :
    (∃ e ∈ closureEntries ls, e.1 = code) ↔
    ∃ l ∈ ls, (strEndsWith l.tag "_List" && isClosureTag l.tag) = true ∧
      ∃ n ∈ l.airports, nodeCode n = some code := by
  unfold closureEntries
  constructor
  · rintro ⟨e, he, hk⟩
    rw [List.mem_flatMap] at he
    obtain ⟨l, hl, hel⟩ := he
    rw [List.mem_filter] at hl
    exact ⟨l, hl.1, hl.2, (listEntries_key_iff l code).mp ⟨e, hel, hk⟩⟩
  · rintro ⟨l, hl, hp, hn⟩
    obtain ⟨e, hel, hk⟩ := (listEntries_key_iff l code).mpr hn
    exact ⟨e, List.mem_flatMap.mpr ⟨l, List.mem_filter.mpr ⟨hl, hp⟩, hel⟩, hk⟩

theorem fetch_closures_key_iff (ls : List XmlList) (code : String) :
    containsKeyB code (fetch_airport_status_information ls).1 = true ↔
    ∃ l ∈ ls, (strEndsWith l.tag "_List" && isClosureTag l.tag) = true ∧
      ∃ n ∈ l.airports, nodeCode n = some code := by
  rw [containsKeyB, fetch_closures_alookup, lastVal_isSome_iff, closureEntries_exists_iff]

theorem assemble_events (cls imps fcm : List (String × String)) (code : String)
    (h1 : (cls.map Prod.fst).Nodup) (h2 : (imps.map Prod.fst).Nodup)
    (hc : code ∈ PA_CODES) :
    (alookup code (assemble cls imps fcm)).map FStatus.events =
      some (if containsKeyB code cls then []
            else match alookup code imps with
                 | some r => [("Impact", r)]
                 | none => []) := by
  unfold assemble
  dsimp only
  have hfoldmap : AIRPORTS.foldl (fun m a => updateAssoc m a.code
        (fun st => { st with flight_category := (alookup (pyUpper a.metar) fcm).getD "UNK" }))
      (imps.foldl (fun m p => updateAssoc m p.1
        (fun st => if st.closed then st
          else { st with status := "IMPACT", events := [("Impact", p.2)] }))
        (cls.foldl (fun m p => updateAssoc m p.1
          (fun st => { st with status := "CLOSED", closed := true, closure_reason := p.2 }))
          (PA_CODES.map (fun c => (c, defaultFStatus c))))) =
      (AIRPORTS.map (fun a => (a.code, a.metar))).foldl (fun m p => updateAssoc m p.1
        ((fun mt st => { st with flight_category := (alookup (pyUpper mt) fcm).getD "UNK" }) p.2))
      (imps.foldl (fun m p => updateAssoc m p.1
        (fun st => if st.closed then st
          else { st with status := "IMPACT", events := [("Impact", p.2)] }))
        (cls.foldl (fun m p => updateAssoc m p.1
          (fun st => { st with status := "CLOSED", closed := true, closure_reason := p.2 }))
          (PA_CODES.map (fun c => (c, defaultFStatus c))))) := by
    rw [List.foldl_map]
  rw [hfoldmap]
  have hairnd : ((AIRPORTS.map (fun a => (a.code, a.metar))).map Prod.fst).Nodup := by
    rw [List.map_map]
    exact of_decide_eq_true rfl
  rw [foldl_updateAssoc_alookup
    (fun mt st => { st with flight_category := (alookup (pyUpper mt) fcm).getD "UNK" })
    code (AIRPORTS.map (fun a => (a.code, a.metar))) _ hairnd]
  have hsome : ∃ mt, alookup code (AIRPORTS.map (fun a => (a.code, a.metar))) = some mt := by
    have hmem : code ∈ (AIRPORTS.map (fun a => (a.code, a.metar))).map Prod.fst := by
      rw [List.map_map]
      exact hc
    obtain ⟨mt, hmt⟩ := Option.isSome_iff_exists.mp ((alookup_isSome_iff _ _).mpr hmem)
    exact ⟨mt, hmt⟩
  obtain ⟨mt, hmt⟩ := hsome
  rw [hmt]
  rw [foldl_updateAssoc_alookup
    (fun r st => if st.closed then st
      else { st with status := "IMPACT", events := [("Impact", r)] })
    code imps _ h2]
  rw [foldl_updateAssoc_alookup
    (fun r st => { st with status := "CLOSED", closed := true, closure_reason := r })
    code cls _ h1]
  rw [alookup_map_self]
  rw [if_pos hc]
  rw [containsKeyB]
  cases hcl : alookup code cls with
  | some r =>
    cases him : alookup code imps with
    | some r2 => rfl
    | none => rfl
  | none =>
    cases him : alookup code imps with
    | some r2 => rfl
    | none => rfl

/-- C4 counterexample: `fetch_faa.py` matches no reason keywords — a
ground-stop event for ABE whose reason text contains closed, closure, snow,
ice, field and plow still yields status IMPACT, not CLOSED — and reasons are
neither deduplicated nor joined: with two closure events for ABE the output
closure reason is the last event's reason alone, with the first event's
reason nowhere in the display string; with two impact events for ABE the
output event list holds only the first event's reason, with the second
event's reason nowhere in the display string. -/
theorem C4_keyword_counterexample :
    (hasSubstr (nodeReason gsKeywordNode) "closed" = true ∧
     hasSubstr (nodeReason gsKeywordNode) "closure" = true ∧
     hasSubstr (nodeReason gsKeywordNode) "snow" = true ∧
     hasSubstr (nodeReason gsKeywordNode) "ice" = true ∧
     hasSubstr (nodeReason gsKeywordNode) "field" = true ∧
     hasSubstr (nodeReason gsKeywordNode) "plow" = true) ∧
    ((alookup "ABE" (faa_main gsLists [])).map FStatus.status = some "IMPACT" ∧
     (some "IMPACT" : Option String) ≠ some "CLOSED") ∧
    ((alookup "ABE" (faa_main twoClsLists [])).map FStatus.closure_reason =
      some (nodeReason twoClsNode2) ∧
     hasSubstr (nodeReason twoClsNode2) (nodeReason twoClsNode1) = false) ∧
    ((alookup "ABE" (faa_main twoImpLists [])).map FStatus.events =
      some [("Impact", nodeReason twoImpNode1)] ∧
     hasSubstr (nodeReason twoImpNode1) (nodeReason twoImpNode2) = false) :=
  ⟨⟨rfl, rfl, rfl, rfl, rfl, rfl⟩, ⟨rfl, of_decide_eq_true rfl⟩, ⟨rfl, rfl⟩, ⟨rfl, rfl⟩⟩

/-- C4 (amended): in the closure/impact extractor an airport is marked CLOSED
exactly when some explicitly closure-tagged `*_List` element names it; the
reason text and its keywords play no role in the decision; the displayed
closure reason is the single reason of the last closure entry for the
airport, and the event list of a non-closed impacted airport holds exactly
one event carrying the first impact entry's reason — matching reasons are
never deduplicated or joined. -/
theorem C4_closed_iff_closure_list (ls : List XmlList) (fcm : List (String × String))
    (code : String) (hc : code ∈ PA_CODES) :
    ((alookup code (faa_main ls fcm)).map FStatus.status = some "CLOSED" ↔
      ∃ l ∈ ls, (strEndsWith l.tag "_List" && isClosureTag l.tag) = true ∧
        ∃ n ∈ l.airports, nodeCode n = some code) ∧
    (alookup code (faa_main ls fcm)).map FStatus.closure_reason =
      some ((lastVal (closureEntries ls) code).getD "") ∧
    (alookup code (faa_main ls fcm)).map FStatus.events =
      some (if (lastVal (closureEntries ls) code).isSome then []
            else match firstVal (impactEntries ls) code with
                 | some r => [("Impact", r)]
                 | none => []) := by
  have hmain : faa_main ls fcm =
      assemble (fetch_airport_status_information ls).1
        (fetch_airport_status_information ls).2 fcm := rfl
  have h := assemble_status_reason (fetch_airport_status_information ls).1
    (fetch_airport_status_information ls).2 fcm code (fetch_fst_nodup ls)
    (fetch_snd_nodup ls) hc
  have he := assemble_events (fetch_airport_status_information ls).1
    (fetch_airport_status_information ls).2 fcm code (fetch_fst_nodup ls)
    (fetch_snd_nodup ls) hc
  rw [hmain]
  refine ⟨?_, ?_, ?_⟩
  · rw [h.1, ← fetch_closures_key_iff ls code]
    by_cases hk : containsKeyB code (fetch_airport_status_information ls).1 = true
    · rw [if_pos hk]
      exact ⟨fun _ => hk, fun _ => rfl⟩
    · rw [if_neg hk]
      constructor
      · intro heq
        exfalso
        by_cases hi : containsKeyB code (fetch_airport_status_information ls).2 = true
        · rw [if_pos hi] at heq
          exact absurd (Option.some.inj heq) (of_decide_eq_true rfl)
        · rw [if_neg hi] at heq
          exact absurd (Option.some.inj heq) (of_decide_eq_true rfl)
      · intro hkk
        exact absurd hkk hk
  · rw [h.2, fetch_closures_alookup]
  · rw [he, containsKeyB, fetch_closures_alookup, fetch_impacts_alookup]

/-- C4 witness: on the scenario feed, ABE is a Pennsylvania code named by a
closure list, so the theorem gives it status CLOSED with the last closure
entry's reason and an empty event list. -/
theorem C4_closed_iff_closure_list_witness :
    ("ABE" ∈ PA_CODES) ∧
    ((alookup "ABE" (faa_main scenarioLists [])).map FStatus.status = some "CLOSED") ∧
    ((alookup "ABE" (faa_main scenarioLists [])).map FStatus.closure_reason =
      some ((lastVal (closureEntries scenarioLists) "ABE").getD "")) ∧
    (alookup "ABE" (faa_main scenarioLists [])).map FStatus.events =
      some (if (lastVal (closureEntries scenarioLists) "ABE").isSome then []
            else match firstVal (impactEntries scenarioLists) "ABE" with
                 | some r => [("Impact", r)]
                 | none => []) := by
  have hmem : "ABE" ∈ PA_CODES := of_decide_eq_true rfl
  have h := C4_closed_iff_closure_list scenarioLists [] "ABE" hmem
  refine ⟨hmem, ?_, h.2.1, h.2.2⟩
  exact h.1.mpr ⟨⟨"Airport_Closures_List", [abeClosureNode]⟩, of_decide_eq_true rfl, rfl,
    abeClosureNode, of_decide_eq_true rfl, rfl⟩

/-- C8 counterexample: the FAA NAS-status GET of `fetch_faa.py` sends no
headers at all, so no identifying client-agent string; and no fetch is ever
retried — with a network that fails on the first attempt and would succeed on
the second, `fetch_text` of `update_status.py` still surfaces the first
attempt's error. -/
theorem C8_no_agent_no_retry_counterexample :
    alookup "User-Agent" Fetching.faa_status_request.headers = none ∧
    Fetching.faa_status_request.headers = [] ∧
    Fetching.fetch_text_status
      (fun n _ => if n = 0 then Except.error "timed out" else Except.ok "data")
      "https://aviationweather.gov/api/data/metar" = Except.error "timed out" :=
  ⟨rfl, rfl, rfl⟩

/-- C8 (amended): every remote fetch is a single HTTP GET attempt with a fixed
timeout — 12 s for `update_status.py`, 25 s for `update_metar.py` and
`build_status_json_pa.py`, 30 s for both GETs of `fetch_faa.py`; the three
`fetch_text` helpers and the flight-category GET send a fixed `User-Agent`,
while the FAA NAS-status GET sends none; there are no retries and no backoff
(each result is exactly the attempt-0 response), and a failed attempt
propagates its error to the caller instead of returning empty data. -/
theorem C8_single_attempt_characterization :
    (∀ url, (Fetching.update_status_request url).timeoutSeconds = 12 ∧
      alookup "User-Agent" (Fetching.update_status_request url).headers =
        some Fetching.UA) ∧
    (∀ url, (Fetching.update_metar_request url).timeoutSeconds = 25 ∧
      alookup "User-Agent" (Fetching.update_metar_request url).headers =
        some Fetching.UA) ∧
    (∀ url, (Fetching.build_status_request url).timeoutSeconds = 25 ∧
      alookup "User-Agent" (Fetching.build_status_request url).headers =
        some Fetching.UA) ∧
    (Fetching.faa_status_request.timeoutSeconds = 30 ∧
      alookup "User-Agent" Fetching.faa_status_request.headers = none) ∧
    (∀ ids, (Fetching.metar_categories_request ids).timeoutSeconds = 30 ∧
      alookup "User-Agent" (Fetching.metar_categories_request ids).headers =
        some "PA-Airport-StatusBoard/1.0 (GitHub Actions)") ∧
    (∀ (net : Fetching.Net) (url : String),
      Fetching.fetch_text_status net url = net 0 (Fetching.update_status_request url) ∧
      Fetching.fetch_text_metar net url = net 0 (Fetching.update_metar_request url) ∧
      Fetching.fetch_text_build net url = net 0 (Fetching.build_status_request url) ∧
      Fetching.faa_status_get net = net 0 Fetching.faa_status_request ∧
      Fetching.metar_categories_get net url = net 0 (Fetching.metar_categories_request url)) ∧
    (∀ (net : Fetching.Net) (url e : String),
      (net 0 (Fetching.update_status_request url) = Except.error e →
        Fetching.fetch_text_status net url = Except.error e) ∧
      (net 0 (Fetching.update_metar_request url) = Except.error e →
        Fetching.fetch_text_metar net url = Except.error e) ∧
      (net 0 (Fetching.build_status_request url) = Except.error e →
        Fetching.fetch_text_build net url = Except.error e) ∧
      (net 0 Fetching.faa_status_request = Except.error e →
        Fetching.faa_status_get net = Except.error e) ∧
      (net 0 (Fetching.metar_categories_request url) = Except.error e →
        Fetching.metar_categories_get net url = Except.error e)) :=
  ⟨fun _ => ⟨rfl, rfl⟩, fun _ => ⟨rfl, rfl⟩, fun _ => ⟨rfl, rfl⟩, ⟨rfl, rfl⟩,
   fun _ => ⟨rfl, rfl⟩, fun _ _ => ⟨rfl, rfl, rfl, rfl, rfl⟩,
   fun _ _ _ => ⟨fun h => h, fun h => h, fun h => h, fun h => h, fun h => h⟩⟩

/-- C8 witness: a network erroring on attempt 0 makes the `update_status.py`
fetch surface that error. -/
theorem C8_single_attempt_characterization_witness :
    Fetching.fetch_text_status (fun _ _ => Except.error "boom") "u" =
      Except.error "boom" :=
  (C8_single_attempt_characterization.2.2.2.2.2.2
    (fun _ _ => Except.error "boom") "u" "boom").1 rfl

end PAStatus
